import Mathlib

/-!
Verification development for the InfluxQL → PromQL dashboard converter
(`src/converter/influxql_to_promql/influxql_to_promql_dashboard_converter.py`
together with `src/common/influx_detection.py` and `src/common/error_manager.py`).

Modelling conventions:
* Python strings are Lean `String`; most scanning work happens on `List Char`.
* Python `re` searches are embedded as hand-written scanners that follow the
  leftmost / lazy / greedy backtracking behaviour of each concrete pattern.
* Fallible code returns `Except PyErr _`; the distinct Python exception classes
  that matter for control flow (`ValueError` is caught by `convert_panel`,
  everything else propagates) are separate constructors.
* The mutable converter object is threaded as an explicit state `ConvSt`
  together with a read-only configuration `Cfg`.
* Python `set` accumulation plus `sorted(...)` is modelled as a duplicate-free
  `List String` accumulator sorted at the end with `List.insertionSort` under
  code-point lexicographic order (Python string order for these ASCII strings).
-/

/-! ### Character primitives -/

/-- Left brace character (written via code point to keep strings plain). -/
def braceL : Char := Char.ofNat 123

/-- Right brace character. -/
def braceR : Char := Char.ofNat 125

/-- Single-quote (apostrophe) character. -/
def squote : Char := Char.ofNat 39

/-- Double-quote character. -/
def dquote : Char := Char.ofNat 34

/-- Backslash character. -/
def bslash : Char := Char.ofNat 92

/-- ASCII lower-casing, the effect of Python `str.lower()` on the ASCII
strings this converter manipulates (code points 65–90 are `A`–`Z`). -/
def asciiLower (c : Char) : Char :=
  if 65 ≤ c.toNat ∧ c.toNat ≤ 90 then Char.ofNat (c.toNat + 32) else c

/-- Python `\s` (ASCII whitespace; the dashboards contain no exotic space). -/
def isPySpace (c : Char) : Bool :=
  c = ' ' ∨ c = '\t' ∨ c = '\n' ∨ c = '\r' ∨ c = Char.ofNat 11 ∨ c = Char.ofNat 12

/-- Python `\w`: `[A-Za-z0-9_]` (ASCII view, by code point). -/
def isWordChar (c : Char) : Bool :=
  (97 ≤ c.toNat ∧ c.toNat ≤ 122) ∨ (65 ≤ c.toNat ∧ c.toNat ≤ 90) ∨
    (48 ≤ c.toNat ∧ c.toNat ≤ 57) ∨ c = '_'

/-- ASCII digit test (code points 48–57). -/
def isDigitCh (c : Char) : Bool := 48 ≤ c.toNat ∧ c.toNat ≤ 57

/-- Case-insensitive character equality (ASCII). -/
def ciEq (a b : Char) : Bool := asciiLower a = asciiLower b

/-- Case-insensitive "starts with": `pat` is a case-insensitive prefix of `s`. -/
def ciStarts : List Char → List Char → Bool
  | [], _ => true
  | _ :: _, [] => false
  | p :: ps, c :: cs => ciEq p c && ciStarts ps cs

/-- Case-sensitive "starts with". -/
def csStarts : List Char → List Char → Bool
  | [], _ => true
  | _ :: _, [] => false
  | p :: ps, c :: cs => (p = c : Bool) && csStarts ps cs

/-- Case-sensitive substring test (Python `needle in haystack`). -/
def containsSub (needle : List Char) : List Char → Bool
  | [] => csStarts needle []
  | c :: cs => csStarts needle (c :: cs) || containsSub needle cs

/-- Lexicographic (code-point) comparison on character lists; this is exactly
how Python compares the ASCII strings handled by the converter. -/
def lexLe : List Char → List Char → Bool
  | [], _ => true
  | _ :: _, [] => false
  | a :: as, b :: bs =>
    if a.toNat < b.toNat then true
    else if b.toNat < a.toNat then false
    else lexLe as bs

/-- String comparison used to model Python `sorted` on strings. -/
def strLe (a b : String) : Bool := lexLe a.data b.data

/-! ### Decimal rendering and parsing (Python `str(n)` / `int(s)`) -/

/-- Digit character for a value below ten. -/
def digitCh (d : Nat) : Char := Char.ofNat (48 + d)

/-- Little-endian digits of a natural number (fuel-based structural
recursion so that closed terms reduce in the kernel; `n + 1` units of fuel
always suffice since the argument strictly shrinks). -/
def natDigitsRevAux : Nat → Nat → List Char
  | 0, _ => []
  | fuel + 1, n =>
    if n < 10 then [digitCh n]
    else digitCh (n % 10) :: natDigitsRevAux fuel (n / 10)

/-- Little-endian digits of a natural number, as produced by decimal printing. -/
def natDigitsRev (n : Nat) : List Char := natDigitsRevAux (n + 1) n

/-- Decimal rendering of a natural number: the model of Python `str(n)`
(equivalently the text an f-string interpolates for an `int`). -/
def renderNat (n : Nat) : List Char := (natDigitsRev n).reverse

/-- Value of a digit character. -/
def digitVal (c : Char) : Nat := c.toNat - 48

/-- Fold a digit list into its value. -/
def digitsVal (l : List Char) : Nat := l.foldl (fun acc c => acc * 10 + digitVal c) 0

/-- Parse a non-empty all-digit string, the model of Python `int(s)` on the
canonical numerals this program produces and on query tokens such as `5m`. -/
def parsePyNat (l : List Char) : Option Nat :=
  if l ≠ [] ∧ l.all isDigitCh then some (digitsVal l) else none

/-! ### Errors -/

/-- The Python exception kinds whose identity matters for control flow.
`convert_panel` catches only `ValueError`; `ConvertError` (a dedicated
subclass raised by `convert_dashboard` around templating) and the rest
propagate. -/
inductive PyErr where
  | valueError (msg : String)
  | keyError (key : String)
  | typeError (msg : String)
  | attributeError (msg : String)
  | notImplementedError (msg : String)
  | indexError (msg : String)
deriving DecidableEq, Repr

/-- Result of `convert_dashboard`: either the converted dashboard or the
dashboard-level `ConvertError` wrapper (non-`ValueError` exceptions escape
unwrapped). -/
inductive DashErr where
  | convertError (msg : String)
  | py (e : PyErr)
deriving DecidableEq, Repr

/-! ### Durations (`_duration_to_seconds` / `_seconds_to_duration`) -/

/-- `_duration_to_seconds` (lines 89–101): lower-case the token, dispatch on
the final unit letter, parse the leading number with `int(...)`; an unknown
unit raises `NotImplementedError`, a non-numeric prefix raises `ValueError`
(from `int`). -/
def durationToSeconds (v : String) : Except PyErr Nat :=
  let l := v.data.map asciiLower
  let numOf : List Char → Except PyErr Nat := fun body =>
    match parsePyNat body with
    | some n => .ok n
    | none => .error (.valueError ("invalid literal for int: " ++ String.mk body))
  match l.getLast? with
  | some 's' => (numOf l.dropLast)
  | some 'm' => (numOf l.dropLast).map (· * 60)
  | some 'h' => (numOf l.dropLast).map (· * 3600)
  | some 'd' => (numOf l.dropLast).map (· * 86400)
  | some 'w' => (numOf l.dropLast).map (· * 86400 * 7)
  | _ => .error (.notImplementedError ("unknown duration " ++ String.mk l))

/-- `_seconds_to_duration` (lines 104–111): seconds form when the value is not
a whole number of minutes or is below one minute, minutes form when it is not
a whole number of hours or below one hour, hours form otherwise. -/
def secondsToDuration (seconds : Nat) : String :=
  let mins := seconds / 60
  let div := seconds % 60
  if div ≠ 0 ∨ mins = 0 then String.mk (renderNat seconds ++ ['s'])
  else
    let hours := mins / 60
    let div2 := mins % 60
    if div2 ≠ 0 ∨ hours = 0 then String.mk (renderNat mins ++ ['m'])
    else String.mk (renderNat hours ++ ['h'])

/-! ### Scanning framework for the concrete `re` patterns

Each Python regular expression used by the converter is embedded as a
hand-written matcher over `List Char` that follows that pattern's
leftmost-first, lazy/greedy backtracking behaviour.  Matchers return the
captured groups together with the rest of the input after the match. -/

/-- Leftmost-match driver (`re.search`): try the matcher at every position,
earliest position wins. -/
def scanFirst (tryM : List Char → Option α) : List Char → Option α
  | [] => tryM []
  | c :: cs =>
    match tryM (c :: cs) with
    | some a => some a
    | none => scanFirst tryM cs

/-- `re.findall` driver: collect non-overlapping matches left to right,
resuming after each match (all embedded matches consume at least one
character; the `max · 1` clamp only guards the recursion). -/
def findAllAux (tryM : List Char → Option (α × List Char)) :
    Nat → List Char → List α
  | 0, _ => []
  | _, [] => []
  | fuel + 1, c :: cs =>
    match tryM (c :: cs) with
    | some (a, rest) =>
      a :: findAllAux tryM fuel ((c :: cs).drop (max ((c :: cs).length - rest.length) 1))
    | none => findAllAux tryM fuel cs

def findAll (tryM : List Char → Option (α × List Char)) (l : List Char) : List α :=
  findAllAux tryM (l.length + 1) l

/-- `re.sub` driver: rewrite non-overlapping matches left to right, where the
matcher also decides the replacement text; at most `count` substitutions
(`0` meaning the count is exhausted, as in `re.sub(p, r, s, count)`). -/
def subAllAux (tryM : List Char → Option (List Char × List Char)) :
    Nat → Nat → List Char → List Char
  | 0, _, l => l
  | _, _, [] => []
  | _, 0, c :: cs => c :: cs
  | fuel + 1, count + 1, c :: cs =>
    match tryM (c :: cs) with
    | some (repl, rest) =>
      repl ++ subAllAux tryM fuel count ((c :: cs).drop (max ((c :: cs).length - rest.length) 1))
    | none => c :: subAllAux tryM fuel (count + 1) cs

def subAll (tryM : List Char → Option (List Char × List Char))
    (count : Nat) (l : List Char) : List Char :=
  subAllAux tryM (l.length + 1) count l

/-- Greedy run with required continuation (`X+` followed by more pattern):
try the longest candidate length first, giving back one character at a time;
`k` starts at the length of the maximal class run. -/
def greedyBack (t : List Char) (cont : List Char → List Char → Option α) :
    Nat → Option α
  | 0 => none
  | k + 1 =>
    match cont (t.take (k + 1)) (t.drop (k + 1)) with
    | some a => some a
    | none => greedyBack t cont k

/-- Greedy run that may also be empty (`X*`). -/
def greedyBack0 (t : List Char) (cont : List Char → List Char → Option α)
    (k : Nat) : Option α :=
  match greedyBack t cont k with
  | some a => some a
  | none => cont [] t

/-- Lazy run with required continuation (`X+?`): shortest candidate first,
growing while the continuation fails; tries lengths `k, k+1, …` for at most
`left` attempts. -/
def lazyGrow (t : List Char) (cont : List Char → List Char → Option α) :
    Nat → Nat → Option α
  | _, 0 => none
  | k, left + 1 =>
    match cont (t.take k) (t.drop k) with
    | some a => some a
    | none => lazyGrow t cont (k + 1) left

/-- Python `str.split(sep)` for a non-empty separator. -/
def splitOnSubAux (sep : List Char) : Nat → List Char → List (List Char)
  | 0, _ => [[]]
  | _, [] => [[]]
  | fuel + 1, c :: cs =>
    if sep ≠ [] ∧ csStarts sep (c :: cs) then
      [] :: splitOnSubAux sep fuel ((c :: cs).drop sep.length)
    else
      match splitOnSubAux sep fuel cs with
      | [] => [[c]]
      | g :: gs => (c :: g) :: gs

def splitOnSub (sep : List Char) (l : List Char) : List (List Char) :=
  splitOnSubAux sep (l.length + 1) l

/-- Python `str.replace(pat, repl)` (all occurrences) for a non-empty pattern. -/
def replaceSubAux (pat repl : List Char) : Nat → List Char → List Char
  | 0, l => l
  | _, [] => []
  | fuel + 1, c :: cs =>
    if pat ≠ [] ∧ csStarts pat (c :: cs) then
      repl ++ replaceSubAux pat repl fuel ((c :: cs).drop pat.length)
    else
      c :: replaceSubAux pat repl fuel cs

def replaceSub (pat repl : List Char) (l : List Char) : List Char :=
  replaceSubAux pat repl (l.length + 1) l

/-- Python `str.replace(pat, repl, 1)` (first occurrence only). -/
def replaceSubOnce (pat repl : List Char) : List Char → List Char
  | [] => []
  | c :: cs =>
    if pat ≠ [] ∧ csStarts pat (c :: cs) then
      repl ++ (c :: cs).drop pat.length
    else
      c :: replaceSubOnce pat repl cs

/-- Python set-as-ordered-accumulator: add if not already present. -/
def setAdd (l : List String) (x : String) : List String :=
  if x ∈ l then l else l ++ [x]

/-- Drop leading and trailing double quotes (`s.lstrip('"').rstrip('"')`,
also the effect of `s.strip('"')`). -/
def stripDq (l : List Char) : List Char :=
  ((l.dropWhile (· = dquote)).reverse.dropWhile (· = dquote)).reverse

/-- Python `" ".join` on the embedded strings. -/
def joinSpace (l : List String) : String := String.intercalate " " l

/-! ### Constants (lines 23–86 of the converter) -/

def SCRAPE_INTERVAL_SECONDS : Nat := 30

def OVER_TIME_AGGREGATIONS : List String :=
  ["avg", "min", "max", "sum", "quantile", "stddev", "stdvar", "count"]

def LABEL_CONDITIONS_OPERATORS : List String := ["<", ">", "<=", ">=", "="]

def AGGREGATION_MAP : List (String × String) :=
  [("count", "count"), ("max", "max"), ("min", "min"), ("median", "avg"),
   ("mean", "avg"), ("non_negative_derivative", "rate"),
   ("non_negative_difference", "increase"), ("percentile", "avg"),
   ("stddev", "stddev"), ("sum", "sum"), ("last", "avg"),
   ("moving_average", "avg"), ("derivative", "rate"), ("difference", "delta")]

def AGGREGATION_TOPLEVEL_MAP : List (String × String) := [("count", "sum")]

def NONDEFAULT_METRIC_PREFIX_SCRAPE_INTERVAL_SECONDS : List (String × Nat) :=
  [("busy_metric_", 1)]

/-- `TEMPLATING_METRIC_STATIC_CONVERSION = {}` (line 86). -/
def TEMPLATING_METRIC_STATIC_CONVERSION : List (String × String) := []

/-- `INVALID_PROMQL_METRIC_CHARACTERS` replacement:
`_replace_invalid_metric_characters` (lines 169–172) replaces each of
`.`, `-`, space and `%` by `_` (sequential single-character replaces). -/
def replace_invalid_metric_characters (metric : String) : String :=
  String.mk (metric.data.map fun c =>
    if c = '.' ∨ c = '-' ∨ c = ' ' ∨ c = '%' then '_' else c)

/-- `METRIC_AGGREGATION_REGEXPS` (lines 73–83) together with
`get_metric_aggregation` (lines 226–230).  Each `re.match` call is anchored at
the start only, so each pattern reduces to the substring / affix tests below:
* `.*_remaining_(percent_|)value` ⟺ contains `_remaining_percent_value` or
  `_remaining_value`;
* `(disk|swap)_free` ⟺ starts with `disk_free` or `swap_free`;
* `mem_available` ⟺ starts with `mem_available`;
* `.*_error_value` ⟺ contains `_error_value`;
* `.*_size(_value|$)` ⟺ contains `_size_value` or ends with `_size`;
* `disk_used.*` ⟺ starts with `disk_used`. -/
def get_metric_aggregation (metric_name : String) : String :=
  let l := metric_name.data
  if containsSub ("_remaining_percent_value".data) l ∨
      containsSub ("_remaining_value".data) l then "min"
  else if csStarts ("disk_free".data) l ∨ csStarts ("swap_free".data) l then "min"
  else if csStarts ("mem_available".data) l then "min"
  else if containsSub ("_error_value".data) l then "max"
  else if containsSub ("_size_value".data) l ∨ ("_size".data).isSuffixOf l then "max"
  else if csStarts ("disk_used".data) l then "max"
  else "avg"

/-! ### `get_metric_name` (lines 481–492) -/

/-- Matcher for `from "(\S+)" where` (`re.IGNORECASE`): literal `from "`,
greedy non-space group, then `" where`. -/
def tryFromWhere (s : List Char) : Option (List Char) :=
  if ciStarts ("from ".data ++ [dquote]) s then
    let t := s.drop 6
    greedyBack t (fun g rest =>
        if ciStarts (dquote :: " where".data) rest then some g else none)
      (t.takeWhile (fun c => !(isPySpace c))).length
  else none

def isWordDotChar (c : Char) : Bool := isWordChar c ∨ c = '.'

/-- Matcher for `(\("|\(|\")([\w.]+)("\)|\)|")`: alternatives for the opening
token in pattern order, greedy `[\w.]+` group, alternatives for the closing
token in pattern order.  Returns (open token, field group, rest after match). -/
def tryFieldToken (s : List Char) : Option (String × List Char × List Char) :=
  let closeCont : List Char → List Char → Option (List Char × List Char) :=
    fun g rest =>
      if csStarts [dquote, ')'] rest then some (g, rest.drop 2)
      else if csStarts [')'] rest then some (g, rest.drop 1)
      else if csStarts [dquote] rest then some (g, rest.drop 1)
      else none
  let afterOpen : List Char → Option (List Char × List Char) := fun t =>
    greedyBack t closeCont (t.takeWhile isWordDotChar).length
  if csStarts ['(', dquote] s then
    (afterOpen (s.drop 2)).map fun (g, rest) => (String.mk ['(', dquote], g, rest)
  else if csStarts ['('] s then
    (afterOpen (s.drop 1)).map fun (g, rest) => (String.mk ['('], g, rest)
  else if csStarts [dquote] s then
    (afterOpen (s.drop 1)).map fun (g, rest) => (String.mk [dquote], g, rest)
  else none

/-- `get_metric_name` (lines 481–492): series from `from "(\S+)" where`,
field from the first `(\("|\(|\")([\w.]+)("\)|\)|")` token; group 1 is always
one of `"`, `(`, `("`, so the `else` arm below always yields group 2, exactly
as in the source. -/
def get_metric_name (query : String) : Except PyErr (String × String) :=
  match scanFirst tryFromWhere query.data with
  | none => .error (.valueError ("Unable to find metric name in " ++ query))
  | some series =>
    match scanFirst tryFieldToken query.data with
    | none => .error (.valueError ("Unable to find (single) metric key in " ++ query))
    | some (g1, g2, _) =>
      .ok (String.mk series,
        if g1 ≠ String.mk [dquote] ∧ g1 ≠ "(" ∧ g1 ≠ String.mk ['(', dquote]
        then g1 else String.mk g2)

/-! ### `get_aggregations` (lines 494–500) -/

/-- Matcher for `select (.*) from` (`re.IGNORECASE`): greedy `.*` (which
cannot cross a newline), so the group runs to the last ` from` on the line. -/
def trySelectFrom (s : List Char) : Option (List Char) :=
  if ciStarts ("select ".data) s then
    let t := s.drop 7
    greedyBack0 t (fun g rest =>
        if ciStarts (" from".data) rest then some g else none)
      (t.takeWhile (· ≠ '\n')).length
  else none

/-- `get_aggregations` (lines 494–500): split the `SELECT … FROM` span on
`(` and map the pieces that are `AGGREGATION_MAP` keys. -/
def get_aggregations (query : String) : Except PyErr (List String) :=
  match scanFirst trySelectFrom query.data with
  | none => .error (.valueError ("Unable to find aggregations in " ++ query))
  | some g =>
    .ok ((splitOnSub ['('] g).filterMap fun p => AGGREGATION_MAP.lookup (String.mk p))

/-! ### `get_alias_from_query` (lines 673–682) -/

/-- Optional tail `( AS ['\"]?(?P<alias>\w+)['\"]?)?` of the alias pattern
(`re.IGNORECASE`): literal ` AS `, optional quote, word run, optional quote.
`None` when the group does not participate, exactly like
`m.groupdict().get("alias", "")` returning `None`. -/
def tryAliasTail (rest : List Char) : Option (List Char) :=
  if ciStarts (" as ".data) rest then
    let t := rest.drop 4
    let t1 := if t.head? = some squote ∨ t.head? = some dquote then t.drop 1 else t
    let run := t1.takeWhile isWordChar
    if run.length = 0 then none else some run
  else none

/-- `get_alias_from_query` (lines 673–682): the field-token pattern with the
optional ` AS …` tail; returns `none` for a query without an alias (the
Python function returns `None` in that case, since `groupdict()` always
contains the key `alias`). -/
def get_alias_from_query (query : String) : Except PyErr (Option String) :=
  match scanFirst (fun s => (tryFieldToken s).map fun (_, _, rest) => rest) query.data with
  | none => .error (.valueError ("Unable to find (single) metric key in " ++ query))
  | some rest => .ok ((tryAliasTail rest).map String.mk)

/-! ### `does_divide_by_self` (lines 623–627) -/

/-- Matcher for `select\s+(\S+?)\s*/\s*\1\s+from ` (`re.IGNORECASE`): the lazy
non-space group grows until a `/` and a case-insensitive repeat of the group
follow, then whitespace and `from `. -/
def tryDivideSelf (s : List Char) : Option Unit :=
  if ciStarts ("select".data) s then
    let t0 := s.drop 6
    if t0.head?.any isPySpace then
      let t1 := t0.dropWhile isPySpace
      lazyGrow t1 (fun g rest =>
          let r1 := rest.dropWhile isPySpace
          match r1 with
          | '/' :: r2 =>
            let r3 := r2.dropWhile isPySpace
            if ciStarts g r3 then
              let r4 := r3.drop g.length
              if r4.head?.any isPySpace then
                if ciStarts ("from ".data) (r4.dropWhile isPySpace) then some ()
                else none
              else none
            else none
          | _ => none)
        1 (t1.takeWhile (fun c => !(isPySpace c))).length
    else none
  else none

/-- `does_divide_by_self` (lines 623–627). -/
def does_divide_by_self (query : String) : Bool :=
  (scanFirst tryDivideSelf query.data).isSome

/-! ### `get_modifications` (lines 629–637) -/

/-- Matcher for `[")](\s*[*/+\-]\s*-?[\d]+?(?:\.\d+?)?) from`
(`re.IGNORECASE`): a quote or closing parenthesis, then the captured
arithmetic suffix, then ` from`.  The lazy digit groups grow until ` from`
matches; the optional decimal part is tried before the bare form. -/
def tryModification (s : List Char) : Option (List Char) :=
  match s with
  | c :: rest =>
    if c = dquote ∨ c = ')' then
      let ws1 := rest.takeWhile isPySpace
      let r1 := rest.drop ws1.length
      match r1 with
      | op :: r2 =>
        if op = '*' ∨ op = '/' ∨ op = '+' ∨ op = '-' then
          let ws2 := r2.takeWhile isPySpace
          let r3 := r2.drop ws2.length
          let (neg, r4) := if r3.head? = some '-' then (['-'], r3.drop 1) else ([], r3)
          lazyGrow r4 (fun digs rest2 =>
              if !digs.all isDigitCh then none
              else
                let tryDec : Option (List Char) :=
                  match rest2 with
                  | '.' :: r5 =>
                    lazyGrow r5 (fun d2 rest3 =>
                        if !d2.all isDigitCh then none
                        else if ciStarts (" from".data) rest3 then some ('.' :: d2)
                        else none)
                      1 (r5.takeWhile isDigitCh).length
                  | _ => none
                match tryDec with
                | some dec => some (ws1 ++ [op] ++ ws2 ++ neg ++ digs ++ dec)
                | none =>
                  if ciStarts (" from".data) rest2 then
                    some (ws1 ++ [op] ++ ws2 ++ neg ++ digs)
                  else none)
            1 (r4.takeWhile isDigitCh).length
        else none
      | [] => none
    else none
  | [] => none

/-- `get_modifications` (lines 629–637): at most one match is collected
(`re.search`). -/
def get_modifications (query : String) : List String :=
  match scanFirst tryModification query.data with
  | some g => [String.mk g]
  | none => []

/-! ### `GroupBy` and `get_group_by` (lines 114–117 and 639–671) -/

/-- The `GroupBy` named tuple (lines 114–117).  As a Python `NamedTuple` with
three fields it is always truthy, so `if group_by:` tests only presence
(`Option.isSome` in the embedding); `over_time` uses `""` for "no window"
(Python `""`, which is falsy like `None` in every use site). -/
structure GroupBy where
  group_by : String
  over_time : String
  fills : List String
deriving DecidableEq, Repr

/-- `re.match(r"(?i)fill\((.*)\)", group)`: anchored `fill(`, greedy `.*` up
to the last `)` on the line. -/
def fillMatchTok (g : List Char) : Option (List Char) :=
  if ciStarts ("fill(".data) g then
    let t := g.drop 5
    greedyBack0 t (fun grp rest => if rest.head? = some ')' then some grp else none)
      (t.takeWhile (· ≠ '\n')).length
  else none

/-- `re.search("\\((.*)\\)", group)`: leftmost `(`, greedy `.*` up to the last
`)` on the line. -/
def timeParen (g : List Char) : Option (List Char) :=
  scanFirst (fun s =>
      match s with
      | '(' :: t =>
        greedyBack0 t (fun grp rest => if rest.head? = some ')' then some grp else none)
          (t.takeWhile (· ≠ '\n')).length
      | _ => none)
    g

/-- `get_group_by` (lines 639–671).  Returns the parsed `GroupBy` (if the
query has a `group by` part) together with the new `self.group_by_labels`
state (`none` both initially and when there is no group-by clause). -/
def get_group_by (query : String) :
    Except PyErr (Option GroupBy × Option (List String)) :=
  let groups := splitOnSub ("group by".data) (query.data.map asciiLower)
  match groups with
  | [] => .ok (none, none)
  | [_] => .ok (none, none)
  | _ :: g1 :: _ =>
    let outer := splitOnSub [' '] g1
    let step : (List String × List String × String) → List Char →
        Except PyErr (List String × List String × String) := fun (fills, group_by, time_val) group =>
      if group = [] then .ok (fills, group_by, time_val)
      else match fillMatchTok group with
      | some f => .ok (fills ++ [String.mk f], group_by, time_val)
      | none =>
        if containsSub ("time".data) group then
          match timeParen group with
          | none =>
            .error (.valueError ("Unparseable group by statement: " ++ String.mk group))
          | some tv =>
            let tv1 := replaceSub ("$_interval".data) ("$__interval".data) tv
            let tv2 := replaceSub ("auto".data) ("$__interval".data) tv1
            let tv3 := replaceSub ("$interval".data) ("$__interval".data) tv2
            .ok (fills, group_by, String.mk tv3)
        else
          .ok (fills, group_by ++
            [String.mk (replaceSub [dquote] [] (replaceSub [','] [] group))], time_val)
    let folded := outer.foldlM (fun acc og =>
        (splitOnSub [','] og).foldlM step acc) ([], [], "")
    match folded with
    | .error e => .error e
    | .ok (fills, group_by, time_val) =>
      let group_by_str :=
        if group_by ≠ [] then " by (" ++ String.intercalate "," group_by ++ ")" else ""
      .ok (some ⟨group_by_str, time_val, fills⟩, some group_by)

/-! ### `TIME_INTERVAL_REGEX` substitution (lines 36 and 460–463) -/

/-- One match of `[0-9]+[mhdwy][s]?`: a digit run, a unit letter, an optional
trailing `s`; returns the rest after the match. -/
def tryTimeInterval (s : List Char) : Option (Unit × List Char) :=
  let ds := s.takeWhile isDigitCh
  if ds = [] then none
  else
    match s.drop ds.length with
    | u :: rest =>
      if u = 'm' ∨ u = 'h' ∨ u = 'd' ∨ u = 'w' ∨ u = 'y' then
        if rest.head? = some 's' then some ((), rest.drop 1) else some ((), rest)
      else none
    | [] => none

/-- `re.sub(TIME_INTERVAL_REGEX, "$__interval", over_time)` (lines 461–463). -/
def timeIntervalSub (s : String) : String :=
  String.mk (subAll (fun l => (tryTimeInterval l).map fun (_, rest) =>
    ("$__interval".data, rest)) (s.length + 1) s.data)

/-! ### `get_labels` (lines 502–596) -/

/-- One match of `single_eq_re = "(\S+)"\s*=\s*'(\S+)'` (case-sensitive:
the `re.IGNORECASE` constant is passed in the `count` slot of `re.sub`, see
below).  Returns ((key, value), rest). -/
def trySingleEq (s : List Char) : Option ((List Char × List Char) × List Char) :=
  match s with
  | c :: t =>
    if c = dquote then
      greedyBack t (fun key rest =>
          match rest with
          | q :: r1 =>
            if q = dquote then
              match r1.dropWhile isPySpace with
              | '=' :: r3 =>
                match r3.dropWhile isPySpace with
                | sq :: r5 =>
                  if sq = squote then
                    greedyBack r5 (fun v rest2 =>
                        match rest2 with
                        | q2 :: r6 =>
                          if q2 = squote then some ((key, v), r6) else none
                        | [] => none)
                      (r5.takeWhile (fun ch => !(isPySpace ch))).length
                  else none
                | [] => none
              | _ => none
            else none
          | [] => none)
        (t.takeWhile (fun ch => !(isPySpace ch))).length
    else none
  | [] => none

/-- The parenthesised OR group
`(\(eq\s+(OR\s+eq)*\))` built in `get_labels` (lines 527–532): an opening
parenthesis, one equality, mandatory whitespace, further equalities each
introduced directly by `OR` and whitespace, then the closing parenthesis.
Returns the (key, value) pairs in textual order and the rest after `)`. -/
def orTail (fuel : Nat) (r : List Char) (acc : List (List Char × List Char)) :
    Option (List (List Char × List Char) × List Char) :=
  match fuel with
  | 0 => none
  | fuel + 1 =>
    let iterate : Option (List (List Char × List Char) × List Char) :=
      if csStarts ("OR".data) r then
        let r1 := r.drop 2
        if r1.head?.any isPySpace then
          match trySingleEq (r1.dropWhile isPySpace) with
          | some (kv, r2) => orTail fuel r2 (acc ++ [kv])
          | none => none
        else none
      else none
    match iterate with
    | some out => some out
    | none =>
      match r with
      | ')' :: rest => some (acc, rest)
      | _ => none

def tryOrGroup (s : List Char) : Option (List (List Char × List Char) × List Char) :=
  match s with
  | '(' :: t =>
    match trySingleEq t with
    | some (kv1, r1) =>
      if r1.head?.any isPySpace then
        orTail r1.length (r1.dropWhile isPySpace) [kv1]
      else none
    | none => none
  | _ => none

/-- The `re.sub(..., _replace, query, re.IGNORECASE)` pass of `get_labels`
(lines 509–532).  Because the flags value is passed positionally it is the
`count` argument (`re.IGNORECASE = 2`), so the scan is case-sensitive and
performs at most two substitutions.  A group whose equalities all share one
key is replaced by `""` and contributes one `key=~"v1|v2"` label; otherwise
the text is kept unchanged (`_replace` returns `m.group(1)`). -/
def orSubGoAux : Nat → List String → Nat → List Char → (List Char × List String)
  | 0, labels, _, l => (l, labels)
  | _, labels, _, [] => ([], labels)
  | _, labels, 0, c :: cs => (c :: cs, labels)
  | fuel + 1, labels, count + 1, c :: cs =>
    match tryOrGroup (c :: cs) with
    | some (kvs, rest) =>
      let consumed := max ((c :: cs).length - rest.length) 1
      let keys := (kvs.map (fun kv => String.mk kv.1)).dedup
      match keys with
      | [key] =>
        let lbl := key ++ "=~" ++ String.mk [dquote] ++
          String.intercalate "|" (kvs.map (fun kv => String.mk kv.2)) ++
          String.mk [dquote]
        let (restOut, labels') :=
          orSubGoAux fuel (setAdd labels lbl) count ((c :: cs).drop consumed)
        (restOut, labels')
      | _ =>
        let (restOut, labels') :=
          orSubGoAux fuel labels count ((c :: cs).drop consumed)
        ((c :: cs).take consumed ++ restOut, labels')
    | none =>
      let (restOut, labels') := orSubGoAux fuel labels (count + 1) cs
      (c :: restOut, labels')

def orSubGo (labels : List String) (count : Nat) (l : List Char) :
    List Char × List String :=
  orSubGoAux (l.length + 1) labels count l

/-- Key part `(\w+?|"\S+?")\s*OP\s*` shared by the label and condition
patterns: either a word run (the lazy `\w+?` is forced to the whole run by
the non-word continuation) or a double-quoted lazy non-space run; then
optional whitespace, the operator, optional whitespace.  The continuation
receives the raw key (with quotes) and the rest after the operator and its
trailing whitespace. -/
def tryKeyOp (opChars : List Char) (cont : List Char → List Char → Option α)
    (s : List Char) : Option α :=
  match s with
  | c :: _ =>
    if isWordChar c then
      let run := s.takeWhile isWordChar
      let r1 := (s.drop run.length).dropWhile isPySpace
      if csStarts opChars r1 then
        cont run ((r1.drop opChars.length).dropWhile isPySpace)
      else none
    else if c = dquote then
      let t := s.drop 1
      lazyGrow t (fun key rest =>
          match rest with
          | q :: r1 =>
            if q = dquote then
              let r2 := r1.dropWhile isPySpace
              if csStarts opChars r2 then
                cont (dquote :: (key ++ [dquote]))
                  ((r2.drop opChars.length).dropWhile isPySpace)
              else none
            else none
          | [] => none)
        1 (t.takeWhile (fun ch => !(isPySpace ch))).length
    else none
  | [] => none

/-- Terminator `(?<!\\)(?:\\{2})*<delim>` of the lazy value groups: an even
run of backslashes followed by the delimiter. -/
def evenBsDelim (delim : Char) (l : List Char) : Option (List Char) :=
  let b := (l.takeWhile (· = bslash)).length
  if b % 2 = 0 ∧ (l.drop b).head? = some delim then some (l.drop (b + 1)) else none

/-- Lazy value group `(.*?)(?<!\\)(?:\\{2})*<delim>`: grow the content until
the terminator matches at a position whose previous character is not a
backslash.  Returns (content, rest after the delimiter). -/
def delimValGo (delim : Char) : List Char → List Char → Option (List Char × List Char)
  | t, acc =>
    match (if acc.getLast? ≠ some bslash then evenBsDelim delim t else none) with
    | some rest => some (acc, rest)
    | none =>
      match t with
      | [] => none
      | c :: ts => if c ≠ '\n' then delimValGo delim ts (acc ++ [c]) else none

/-- Value of the regex / quoted-literal forms: requires the opening delimiter
then the lazy content. -/
def tryDelimVal (delim : Char) (s : List Char) : Option (List Char × List Char) :=
  match s with
  | c :: t => if c = delim then delimValGo delim t [] else none
  | [] => none

/-- Value of the non-quoted form `([^\s\'~].*?)(?:\)|\s)` (lines 588): a first
character that is not whitespace, quote or tilde, then lazily up to the first
`)` or whitespace, which is consumed but not captured. -/
def unquotedValGo : List Char → List Char → Option (List Char × List Char)
  | [], _ => none
  | c :: ts, acc =>
    if c = ')' ∨ isPySpace c then some (acc, ts)
    else if c ≠ '\n' then unquotedValGo ts (acc ++ [c])
    else none

def tryUnquotedVal (s : List Char) : Option (List Char × List Char) :=
  match s with
  | c :: t =>
    if ¬ isPySpace c ∧ c ≠ squote ∧ c ≠ '~' then unquotedValGo t [c]
    else none
  | [] => none

/-- `s.replace("\\", "\\\\")` (`_escape_backslashes`, lines 573–579, and the
regex escape at line 561). -/
def escapeBackslashes (v : List Char) : List Char :=
  replaceSub [bslash] [bslash, bslash] v

/-- Post-processing of one regex-operator match (lines 544–564). -/
def regexLabelOf (op : String) (field_name : String)
    (kv : List Char × List Char) : Option String :=
  let key := String.mk (replaceSub ['-'] ['_'] (stripDq kv.1))
  if key = field_name then none
  else
    let v0 := kv.2
    let v1 :=
      if csStarts ['^'] v0 then v0.drop 1
      else if csStarts ('.' :: ['*']) v0 then v0
      else '.' :: '*' :: v0
    let v2 :=
      if ("$".data).isSuffixOf v1 then v1.dropLast
      else if (('.' :: ['*'] : List Char)).isSuffixOf v1 then v1
      else v1 ++ ['.', '*']
    let v3 := replaceSub [bslash, '/'] ['/'] v2
    let v4 := escapeBackslashes v3
    let v5 := replaceSub [squote] [bslash, squote] v4
    some (key ++ op ++ String.mk [dquote] ++ String.mk v5 ++ String.mk [dquote])

/-- Post-processing of one plain-operator match (lines 581–594). -/
def plainLabelOf (op : String) (field_name : String)
    (kv : List Char × List Char) : Option String :=
  let key := String.mk (stripDq kv.1)
  if key = field_name then none
  else
    some (key ++ op ++ String.mk [dquote] ++ String.mk (escapeBackslashes kv.2) ++
      String.mk [dquote])

/-- One operator pass of `get_labels` (lines 534–594) over the post-`re.sub`
query; accumulates into the label set. -/
def labelsForOp (op : String) (field_name : String) (q : List Char)
    (labels : List String) : List String :=
  if op = "=~" ∨ op = "!~" then
    let found := findAll (tryKeyOp op.data (fun key rest =>
        (tryDelimVal '/' rest).map fun (v, rest2) => ((key, v), rest2))) q
    found.foldl (fun acc kv =>
        match regexLabelOf op field_name kv with
        | some lbl => setAdd acc lbl
        | none => acc) labels
  else
    let foundQ := findAll (tryKeyOp op.data (fun key rest =>
        (tryDelimVal squote rest).map fun (v, rest2) => ((key, v), rest2))) q
    let labels1 := foundQ.foldl (fun acc kv =>
        match plainLabelOf op field_name kv with
        | some lbl => setAdd acc lbl
        | none => acc) labels
    let foundU := findAll (tryKeyOp op.data (fun key rest =>
        (tryUnquotedVal rest).map fun (v, rest2) => ((key, v), rest2))) q
    foundU.foldl (fun acc kv =>
        match plainLabelOf op field_name kv with
        | some lbl => setAdd acc lbl
        | none => acc) labels1

/-- The label-collection phase of `get_labels` (lines 507–594): the OR-group
substitution pass, then the four comparison-operator passes in order `=`,
`!=`, `=~`, `!~`.  Returns the rewritten query and the accumulated label set
(insertion-ordered, duplicate-free). -/
def get_labels_core (query : String) (field_name : String) :
    List Char × List String :=
  let (q1, labels0) := orSubGo [] 2 query.data
  let labels1 := labelsForOp "=" field_name q1 labels0
  let labels2 := labelsForOp "!=" field_name q1 labels1
  let labels3 := labelsForOp "=~" field_name q1 labels2
  let labels4 := labelsForOp "!~" field_name q1 labels3
  (q1, labels4)

/-- `get_labels` (lines 502–596): the collected set is rendered
comma-separated in sorted order (`",".join(sorted(labels))`).  Returns the
rewritten query and the label string. -/
def get_labels (query : String) (field_name : String) : String × String :=
  let (q1, labels4) := get_labels_core query field_name
  (String.mk q1,
    String.intercalate ","
      (List.insertionSort (fun a b => strLe a b = true) labels4))

/-! ### `get_conditions` (lines 598–621) -/

/-- Python `repr` of the plain ASCII strings that appear in the converter's
error messages: single-quoted (escaping backslashes and contained single
quotes) unless the string contains a single quote but no double quote, in
which case double-quoted. -/
def pyReprStr (s : String) : String :=
  if s.data.contains squote ∧ ¬ s.data.contains dquote then
    String.mk (dquote :: escapeBackslashes s.data ++ [dquote])
  else
    String.mk (squote ::
      (replaceSub [squote] [bslash, squote] (escapeBackslashes s.data)) ++ [squote])

/-- Condition value `(-?\w+(?:\.?\d+)?)`: optional minus, a word run, then an
optional dot-and-digits tail (the bare `\d+` variant of the optional group
can never fire after a maximal word run). -/
def tryCondVal (s : List Char) : Option (List Char × List Char) :=
  let (neg, r0) := if s.head? = some '-' then (['-'], s.drop 1) else (([] : List Char), s)
  let run := r0.takeWhile isWordChar
  if run = [] then none
  else
    let r1 := r0.drop run.length
    match r1 with
    | '.' :: r2 =>
      let ds := r2.takeWhile isDigitCh
      if ds = [] then some (neg ++ run, r1)
      else some (neg ++ run ++ '.' :: ds, r2.drop ds.length)
    | _ => some (neg ++ run, r1)

/-- Result of `get_conditions`: the joined string form, or the list form used
when the query contains ` OR ` and at least one condition was found. -/
inductive Conds where
  | cstr (s : String)
  | clist (l : List String)
deriving DecidableEq, Repr

/-- Python truthiness of the `conditions` value. -/
def Conds.truthy : Conds → Bool
  | .cstr s => s ≠ ""
  | .clist l => l ≠ []

/-- `get_conditions` (lines 598–621): scan the five comparison operators in
order; a condition whose key is not the selected field is skipped for `=` and
fatal otherwise; `=` is rendered as `==`. -/
def get_conditions (query : String) (field_name : String) : Except PyErr Conds := do
  let condsPerOp : String → Except PyErr (List String) := fun op => do
    let found := findAll (tryKeyOp op.data (fun key rest =>
        (tryCondVal rest).map fun (v, rest2) => ((key, v), rest2))) query.data
    found.foldlM (fun acc (kv : List Char × List Char) => do
        let key := String.mk (stripDq kv.1)
        if key ≠ field_name then
          if op = "=" then pure acc
          else
            throw (PyErr.valueError ("Query " ++ pyReprStr query ++
              " has condition that does not match select field, cannot convert"))
        else
          let op2 := if op = "=" then "==" else op
          pure (acc ++ [op2 ++ " " ++ String.mk kv.2])) []
  let conditions ← LABEL_CONDITIONS_OPERATORS.foldlM
    (fun acc op => do pure (acc ++ (← condsPerOp op))) []
  if containsSub (" OR ".data) query.data ∧ conditions ≠ [] then
    pure (Conds.clist conditions)
  else
    pure (Conds.cstr (joinSpace conditions))

/-! ### Data model (dashboard JSON objects and converter state) -/

/-- A datasource reference value: either a name string or an object with
optional `uid` / `type` entries. -/
inductive DsVal where
  | vstr (s : String)
  | vobj (uid : Option String) (typ : Option String)
deriving DecidableEq, Repr

/-- A `datasource` dictionary entry: absent key, JSON `null`, or a value. -/
inductive DsField where
  | absent
  | null
  | val (v : DsVal)
deriving DecidableEq, Repr

/-- The replacement datasource; the constructor assertion (lines 150–153)
requires `uid` and `type` keys, so both are present. -/
structure Ds where
  uid : String
  dstype : String
deriving DecidableEq, Repr

/-- One registry entry of `grafana_datasources`: name, type and the optional
`jsonData.version` marker (`"Flux"` for the unsupported variant). -/
structure DsInfo where
  name : String
  dstype : String
  version : Option String
deriving DecidableEq, Repr

/-- One element of a structured target's `tags` list. -/
structure Tag where
  key : String
  value : String
  operator : Option String
  condition : Option String
deriving DecidableEq, Repr

/-- A `params` entry of a select item (strings or integers; the dashboards
handled by the claims carry no floating point parameters). -/
inductive SelVal where
  | s (v : String)
  | i (v : Int)
deriving DecidableEq, Repr

/-- One item of a select chain. -/
structure SelItem where
  type : String
  params : List SelVal
deriving DecidableEq, Repr

/-- One item of a structured target's `groupBy` list. -/
structure GrpItem where
  type : String
  params : List String
deriving DecidableEq, Repr

/-- A panel query target.  `refId` and `resultFormat` are read
unconditionally by `convert_query` (their absence would be a `KeyError`
outside the modelled dashboards), the remaining fields model the guarded
dictionary accesses. -/
structure Target where
  refId : String
  resultFormat : String
  dsType : Option String
  datasource : DsField
  rawQuery : Option Bool
  query : Option String
  measurement : Option String
  select : Option (List (List SelItem))
  tags : Option (List Tag)
  groupBy : Option (List GrpItem)
  aliasStr : Option String
  hide : Option Bool
  notInfluxTarget : Option Bool
deriving DecidableEq, Repr

/-- The destination-language target built by `convert_query` (lines 821–831). -/
structure NewTarget where
  expr : String
  format : String
  instant : Bool
  intervalFactor : Nat
  refId : String
  legendFormat : String
  hide : Option Bool
  /-- Set only when a later `convert_targets` run flags this dictionary as
  non-source (line 1084); `convert_query` never sets it. -/
  notInfluxTarget : Option Bool := none
deriving DecidableEq, Repr

/-- An element of a panel's target list after conversion: either a (possibly
flagged) source-shaped target dictionary or a converted target. -/
inductive TOut where
  | told (t : Target)
  | tnew (n : NewTarget)
deriving DecidableEq, Repr

/-- A template variable's `query` value: a plain string or the uncommon
dictionary form holding an inner query string. -/
inductive TplQueryVal where
  | qstr (s : String)
  | qdict (inner : Option String)
deriving DecidableEq, Repr

/-- A templating list item. -/
structure TplItem where
  type : String
  name : String
  query : TplQueryVal
  datasource : DsField
  definition : Option String
  sort : Option Nat
  allValue : Option String
deriving DecidableEq, Repr

/-- An alert notification reference. -/
structure Notif where
  id : Option Int
  uid : Option String
deriving DecidableEq, Repr

/-- A panel alert block (the fields touched by `convert_alerts`). -/
structure Alert where
  name : String
  notifications : Option (List Notif)
deriving DecidableEq, Repr

/-- A series override (the `alias` field touched by
`convert_series_overrides`). -/
structure Override where
  aliasStr : Option String
deriving DecidableEq, Repr

/-- A dashboard panel; `panels` holds the children of a `row` panel. -/
inductive Panel where
  | mk (id : Nat) (title : Option String) (ptype : String)
      (datasource : DsField) (targets : Option (List TOut))
      (alert : Option Alert) (seriesOverrides : Option (List Override))
      (interval : Option String) (nullPointMode : Option String)
      (panels : List Panel)

def Panel.ptype : Panel → String
  | .mk _ _ t _ _ _ _ _ _ _ => t

def Panel.datasource : Panel → DsField
  | .mk _ _ _ d _ _ _ _ _ _ => d

def Panel.targets : Panel → Option (List TOut)
  | .mk _ _ _ _ t _ _ _ _ _ => t

def Panel.alert : Panel → Option Alert
  | .mk _ _ _ _ _ a _ _ _ _ => a

def Panel.seriesOverrides : Panel → Option (List Override)
  | .mk _ _ _ _ _ _ s _ _ _ => s

def Panel.interval : Panel → Option String
  | .mk _ _ _ _ _ _ _ i _ _ => i

def Panel.nullPointMode : Panel → Option String
  | .mk _ _ _ _ _ _ _ _ n _ => n

def Panel.panels : Panel → List Panel
  | .mk _ _ _ _ _ _ _ _ _ p => p

/-- A dashboard: `uid` and `templating` are read unconditionally by
`convert_dashboard` (lines 1185–1187); `templating = none` models the
present-but-empty `{}` dictionary (falsy, so templating conversion is
skipped), `some l` models `{"list": l}`. -/
structure Dashboard where
  uid : String
  title : Option String
  templating : Option (List TplItem)
  panels : List Panel
  rows : List (List Panel)

/-- An entry of the metric-usage index: a converted (or passed-through)
target or a templating item appended by the back-fill pass. -/
inductive MObj where
  | mtout (t : TOut)
  | mtempl (item : TplItem)
deriving DecidableEq, Repr

/-- `metric_to_objects`: metric name → dashboard title → recorded objects,
with Python dictionary insertion order preserved. -/
abbrev MetricIndex := List (String × List (Option String × List MObj))

/-- The converter's mutable attributes threaded through the embedding. -/
structure ConvSt where
  metricToObjects : MetricIndex
  errors : List (String × String)
  groupByLabels : Option (List String)
  getRepMetric : List (Bool × String × Nat)
  currentDashboard : Option String
deriving DecidableEq, Repr

/-- The converter's read-only configuration (constructor arguments). -/
structure Cfg where
  datasources : List (String × DsInfo)
  replacementDatasource : Ds
  alertNotificationsMap : Option (List (Int × String))
  alertNotificationsUidMap : Option (List (String × String))
  scrapeInterval : Nat
deriving DecidableEq, Repr

/-- `ErrorManager.add_error` (error_manager.py lines 88–101): the message has
commas replaced by dashes and is appended with its level (`"INFO"` default);
the dashboard/panel context is always set during dashboard conversion. -/
def addErr (st : ConvSt) (msg : String) (lvl : String) : ConvSt :=
  { st with errors := st.errors ++ [(String.mk (replaceSub [','] ['-'] msg.data), lvl)] }

/-- Python truthiness of an optional string. -/
def optStrTruthy : Option String → Bool
  | some s => s ≠ ""
  | none => false

/-- Python `str(...)` of the optional dashboard title (`None` renders as
`"None"` inside f-strings). -/
def optStr : Option String → String
  | some s => s
  | none => "None"

/-! ### `format_expression` (lines 350–479) -/

/-- State of one iteration of the conditions loop in `format_expression`. -/
structure FmtAcc where
  expressions : List String
  over_times : List String
deriving DecidableEq, Repr

/-- The body of the conditions loop of `format_expression` (lines 368–477)
for one condition.  `over_time_aggregations` is a Python `set`; it is
modelled as an insertion-ordered duplicate-free list (it never holds more
than one element on the inputs below, making `" ".join(...)` on it
deterministic). -/
def formatOneCondition (cfg : Cfg) (divide_by_self : Bool) (metric_name : String)
    (aggregations : List String) (labels : String) (group_by : Option GroupBy)
    (modifications : List String) (condition0 : String) (acc : FmtAcc) : FmtAcc :=
  let ota0 : List String := []
  let over_time0 : String := match group_by with | some gb => gb.over_time | none => ""
  let aggregation0 : String := (aggregations.getLast?).getD ""
  let (ota1, over_time1) :=
    match group_by with
    | none => (ota0, over_time0)
    | some _ =>
      if over_time0 = "" then
        (ota0, if aggregations.contains "count" then "$__range" else over_time0)
      else
        (aggregations.foldl (fun acc2 aggr =>
            if OVER_TIME_AGGREGATIONS.contains aggr then
              if aggregations.contains "rate" then setAdd acc2 "rate"
              else if aggregations.contains "increase" then setAdd acc2 "increase"
              else setAdd acc2 (aggr ++ "_over_time")
            else acc2) ota0,
          over_time0)
  let condition1 :=
    if divide_by_self then
      let c := if condition0 = "" then "!= 0" else condition0
      String.mk (replaceSubOnce [' '] (" bool ".data) c.data)
    else condition0
  let condition2 := if condition1 = "> 0" ∧ aggregation0 = "sum" then "" else condition1
  let (expr1, ota2, over_time2, aggregationsX) :=
    if aggregation0 ≠ "" then
      let (agg1, ota1b, over_time1b) :=
        if (aggregation0 = "rate" ∨ aggregation0 = "increase") ∧ ota1 = [] then
          (get_metric_aggregation metric_name, setAdd ota1 aggregation0,
            if over_time1 = "" then "$__rate_interval" else over_time1)
        else (aggregation0, ota1, over_time1)
      match group_by with
      | some gb =>
        if gb.group_by ≠ "" ∨ ota1b ≠ [] then
          let (agg2, ota1c) :=
            if condition2 = "" then
              let old_agg := agg1
              let agg2 := ((AGGREGATION_TOPLEVEL_MAP.lookup agg1).getD agg1)
              if old_agg = "count" ∧ agg2 = "sum" then (agg2, ["count_over_time"])
              else (agg2, ota1b)
            else (agg1, ota1b)
          (agg2 ++ replace_invalid_metric_characters gb.group_by, ota1c,
            over_time1b, aggregations)
        else (agg1, ota1b, over_time1b, aggregations)
      | none => (agg1, ota1b, over_time1b, aggregations)
    else ("", ota1, over_time1, aggregations)
  let ota3 :=
    if condition2 ≠ "" ∧
        aggregationsX.any (fun a => a ≠ "avg" ∧ a ≠ "max" ∧ a ≠ "min") then
      ([] : List String)
    else ota2
  let inner0 := if ota3 ≠ [] then joinSpace ota3 ++ "(" else ""
  let inner1 := inner0 ++ metric_name
  let inner2 :=
    if labels ≠ "" then inner1 ++ String.mk [braceL] ++ labels ++ String.mk [braceR]
    else inner1
  let (inner3, overTimesAdd, over_time3) :=
    if over_time2 ≠ "" then
      let scrape := NONDEFAULT_METRIC_PREFIX_SCRAPE_INTERVAL_SECONDS.foldl
        (fun acc2 (pfx, ov) =>
          if csStarts pfx.data metric_name.data then ov else acc2)
        cfg.scrapeInterval
      let (ot4, add1) :=
        if aggregations.contains "rate" ∨ aggregations.contains "increase" then
          if (over_time2 = "$__rate_interval" ∨ over_time2 = "$__interval") ∧
              scrape = cfg.scrapeInterval then
            ("$__rate_interval", ([] : List String))
          else (over_time2, [secondsToDuration (scrape * 4)])
        else (over_time2, [secondsToDuration scrape])
      let inner3 :=
        if ota3 ≠ [] then inner2 ++ "[" ++ timeIntervalSub ot4 ++ "]" else inner2
      (inner3, add1 ++ [ot4], ot4)
    else (inner2, [], over_time2)
  let inner4 :=
    if ota3 ≠ [] then inner3 ++ ")" ++ condition2
    else inner3 ++ condition2 ++ ")" ++ joinSpace modifications
  let expr2 := expr1 ++ "(" ++ inner4
  let expr3 :=
    if ota3 ≠ [] then expr2 ++ ") " ++ joinSpace modifications else expr2
  { expressions := acc.expressions ++ [expr3],
    over_times := acc.over_times ++ overTimesAdd }

/-- `format_expression` (lines 350–479): build one expression per condition
(the single joined condition string, or each element of the OR list), return
the ` or `-joined expression, the collected windows, the group-by fills and
the alias. -/
def format_expression (cfg : Cfg) (divide_by_self : Bool) (metric_name : String)
    (aggregations : List String) (labels : String) (group_by : Option GroupBy)
    (modifications : List String) (conditions : Conds) (alias_name : Option String) :
    String × List String × List String × Option String :=
  let conds := match conditions with | .cstr s => [s] | .clist l => l
  let metric_name := replace_invalid_metric_characters metric_name
  let acc := conds.foldl
    (fun acc c => formatOneCondition cfg divide_by_self metric_name aggregations
        labels group_by modifications c acc)
    ⟨[], []⟩
  let fills := match group_by with | some gb => gb.fills | none => []
  (String.intercalate " or " acc.expressions, acc.over_times, fills, alias_name)

/-! ### `convert_expression` (lines 684–723) -/

/-- `convert_expression` (lines 684–723).  State is threaded because
`get_group_by` resets and sets `self.group_by_labels` and a default-
aggregation warning may be recorded; partial state updates persist when an
exception propagates. -/
def convert_expression (cfg : Cfg) (st : ConvSt) (query : String) :
    ConvSt × Except PyErr (String × List String × List String × Option String) :=
  match get_metric_name query with
  | .error e => (st, .error e)
  | .ok (series0, field0) =>
    let series_name := String.mk
      (replaceSub [dquote] []
        (((splitOnSub ['.'] series0.data).getLast?).getD []))
    match get_alias_from_query query with
    | .error e => (st, .error e)
    | .ok alias_name =>
      let field_name := String.mk (replaceSub ['.'] ['_'] field0.data)
      let metric_name := series_name ++ "_" ++ field_name
      match get_aggregations query with
      | .error e => (st, .error e)
      | .ok aggs0 =>
        let aggregations :=
          if aggs0 = ["avg"] then [get_metric_aggregation metric_name] else aggs0
        let (query, labels) := get_labels query field_name
        let modifications := get_modifications query
        let st1 := { st with groupByLabels := none }
        match get_group_by query with
        | .error e => (st1, .error e)
        | .ok (group_by, gbLabels) =>
          let st2 := { st1 with groupByLabels := gbLabels }
          let useDefault : Bool := aggregations = [] &&
            (match group_by with | some gb => gb.group_by ≠ "" | none => false)
          let aggregations2 :=
            if useDefault then [get_metric_aggregation metric_name] else aggregations
          let st3 :=
            if useDefault ∧ aggregations2 = ["avg"] then
              addErr st2 ("Using default aggregation of avg for " ++ query) "WARN"
            else st2
          match get_conditions query field_name with
          | .error e => (st3, .error e)
          | .ok conditions =>
            let divide_by_self := does_divide_by_self query
            if divide_by_self ∧ (conditions.truthy ∨ modifications ≠ []) then
              (st3, .error (.valueError ("Unsupported query " ++ query ++
                ", divide by self combined with conditions or modifications")))
            else
              (st3, .ok (format_expression cfg divide_by_self metric_name
                aggregations2 labels group_by modifications conditions alias_name))

/-! ### `convert_subquery` (lines 725–762) -/

/-- The verbose anchored pattern of `convert_subquery` (lines 733–746).
Greedy `\s*`/`\S+`/class runs are taken maximally (each is followed by an
incompatible character class on the inputs this branch can see); the two
free `.*` groups backtrack from the right.  Returns (inner1, inner2,
outer_group).  The exact shape never influences a theorem: the caller
`convert_query` unpacks this function's 3-tuple into four variables, so the
branch always raises `ValueError` (see `convert_query`). -/
def trySubqueryMatch (l : List Char) : Option (List Char × List Char × List Char) :=
  let t0 := l.dropWhile isPySpace
  if ¬ ciStarts ("select".data) t0 then none
  else
    let t1 := (t0.drop 6)
    if ¬ (t1.head?.any isPySpace) then none
    else
      let t2 := t1.dropWhile isPySpace
      if ¬ ciStarts ("sum(".data ++ [dquote]) t2 then none
      else
        let t3 := t2.drop 5
        let keyRun := t3.takeWhile (fun c =>
          (97 ≤ c.toNat ∧ c.toNat ≤ 122) ∨ (65 ≤ c.toNat ∧ c.toNat ≤ 90))
        if keyRun = [] then none
        else
          let t4 := t3.drop keyRun.length
          if ¬ csStarts [dquote, ')'] t4 then none
          else
            let t5 := (t4.drop 2).dropWhile isPySpace
            if ¬ ciStarts ("from".data) t5 then none
            else
              let t6 := (t5.drop 4).dropWhile isPySpace
              match t6 with
              | '(' :: t7 =>
                let i1a := t7.takeWhile isPySpace
                let t8 := t7.drop i1a.length
                if ¬ ciStarts ("select".data) t8 then none
                else
                  let t9 := t8.drop 6
                  let i1b := t9.takeWhile isPySpace
                  let t10 := t9.drop i1b.length
                  let i1c := t10.takeWhile (fun c => !(isPySpace c))
                  if i1c = [] then none
                  else
                    let t11 := t10.drop i1c.length
                    let i1d := t11.takeWhile isPySpace
                    let inner1 := i1a ++ "select".data ++ i1b ++ i1c ++ i1d
                    let t12 := t11.drop i1d.length
                    let t13 :=
                      if ciStarts ("as".data) t12 ∧
                          ((t12.drop 2).head?.any isPySpace) then
                        let u1 := (t12.drop 3).takeWhile (fun c => !(isPySpace c))
                        if u1 ≠ [] ∧
                            (((t12.drop 3).drop u1.length).head?.any isPySpace) then
                          ((t12.drop 3).drop u1.length).dropWhile isPySpace
                        else t12
                      else t12
                    greedyBack0 t13 (fun inner2 rest =>
                        if ¬ (rest.head?.any isPySpace) then none
                        else
                          let r1 := rest.dropWhile isPySpace
                          if ¬ ciStarts ("group".data) r1 then none
                          else
                            let r2 := r1.drop 5
                            if ¬ (r2.head?.any isPySpace) then none
                            else
                              let r3 := r2.dropWhile isPySpace
                              if ¬ ciStarts ("by".data) r3 then none
                              else
                                let r4 := r3.drop 2
                                greedyBack0 r4 (fun _ rest2 =>
                                    match rest2 with
                                    | ')' :: r5 =>
                                      let r6 := r5.dropWhile isPySpace
                                      if ciStarts ("group".data) r6 ∧
                                          ((r6.drop 5).head?.any isPySpace) ∧
                                          ciStarts ("by".data) (r6.drop 6) ∧
                                          ((r6.drop 8).head?.any isPySpace) then
                                        some (inner1, inner2, r6)
                                      else none
                                    | _ => none)
                                  (r4.takeWhile (· ≠ '\n')).length)
                      (t13.takeWhile (· ≠ '\n')).length
              | _ => none

/-- `re.match(r"\S+ by (\((.*))", expr)` of lines 757–760. -/
def tryAggByParen (l : List Char) : Option (List Char) :=
  let run := l.takeWhile (fun c => !(isPySpace c))
  if run = [] then none
  else
    let t := l.drop run.length
    if ciStarts (" by (".data) t then some (t.drop 4) else none

/-- `convert_subquery` (lines 725–762): translate the inner select and
re-wrap with a top-level `sum by`; every failing shape raises
`ValueError`. -/
def convert_subquery (cfg : Cfg) (st : ConvSt) (query : String) :
    ConvSt × Except PyErr (String × List String × List String) :=
  match trySubqueryMatch query.data with
  | some (inner1, inner2, outer_group) =>
    let subquery := String.mk inner1 ++ " " ++ String.mk inner2 ++ " " ++
      String.mk outer_group
    match convert_expression cfg st subquery with
    | (st1, .error e) => (st1, .error e)
    | (st1, .ok (expr, over_times, fills, _)) =>
      if over_times ≠ [] then
        match tryAggByParen expr.data with
        | some rest =>
          let restS := String.mk ((rest.dropWhile isPySpace).reverse.dropWhile
            isPySpace).reverse
          (st1, .ok ("sum by " ++ restS, over_times, fills))
        | none =>
          (st1, .error (.valueError ("Unsupported subquery in " ++
            pyReprStr query)))
      else
        (st1, .error (.valueError ("Unsupported subquery in " ++ pyReprStr query)))
  | none =>
    (st, .error (.valueError ("Unsupported subquery in " ++ pyReprStr query)))

/-! ### Legend and series overrides (lines 1011–1034) -/

/-- One match of `(\[\[|\$)tag_([a-zA-Z_]+)(\]\]|)` with replacement
`{{ \2 }}` (line 1025–1027). -/
def tryTagRef (s : List Char) : Option (List Char × List Char) :=
  let afterOpen : List Char → Option (List Char × List Char) := fun t =>
    if ciStarts ("tag_".data) t then
      let run := (t.drop 4).takeWhile (fun c =>
        (97 ≤ c.toNat ∧ c.toNat ≤ 122) ∨ (65 ≤ c.toNat ∧ c.toNat ≤ 90) ∨ c = '_')
      if run = [] then none
      else
        let rest := (t.drop 4).drop run.length
        let rest2 := if csStarts (']' :: [']']) rest then rest.drop 2 else rest
        some (braceL :: braceL :: ' ' :: run ++ [' ', braceR, braceR], rest2)
    else none
  if csStarts ('[' :: ['[']) s then afterOpen (s.drop 2)
  else if csStarts ['$'] s then afterOpen (s.drop 1)
  else none

/-- One match of `\d+\w+\spercentile` (lines 1018–1019 and 1029): greedy
digits (giving back to the mandatory word run when needed), greedy word run,
one whitespace, literal `percentile`. -/
def tryPercentile (s : List Char) : Option (Unit × List Char) :=
  greedyBack s
    (fun digs rest =>
      if ¬ digs.all isDigitCh then none
      else
        let w := rest.takeWhile isWordChar
        if w = [] then none
        else
          match rest.drop w.length with
          | c :: r2 =>
            if isPySpace c ∧ csStarts ("percentile".data) r2 then
              some ((), r2.drop 10)
            else none
          | [] => none)
    (s.takeWhile isDigitCh).length

/-- `re.sub(r"(\[\[|\$)tag_([a-zA-Z_]+)(\]\]|)", r"{{ \2 }}", ...)`. -/
def tagSub (s : String) : String :=
  String.mk (subAll (fun l => tryTagRef l) (s.length + 1) s.data)

/-- `re.sub(r"\d+\w+\spercentile", "Mean", ...)`. -/
def percentileSub (s : String) : String :=
  String.mk (subAll (fun l => (tryPercentile l).map fun (_, rest) =>
    ("Mean".data, rest)) (s.length + 1) s.data)

/-- `get_legend_format` (lines 1024–1034); reads the `group_by_labels` state
left by the previous `get_group_by` call. -/
def get_legend_format (st : ConvSt) (target : Target) : String :=
  let legend1 := tagSub (target.aliasStr.getD "")
  let legend2 := percentileSub legend1
  if legend2 = "" && (match st.groupByLabels with | some l => (l ≠ [] : Bool) | none => false) then
    joinSpace ((st.groupByLabels.getD []).map fun label =>
      String.mk [braceL, braceL] ++ label ++ String.mk [braceR, braceR])
  else legend2

/-- `convert_series_overrides` (lines 1011–1022). -/
def convert_series_overrides (overrides : List Override) : List Override :=
  overrides.map fun o =>
    match o.aliasStr with
    | some a => if a ≠ "" then { o with aliasStr := some (percentileSub a) } else o
    | none => o

/-! ### Datasource detection (`src/common/influx_detection.py`) -/

/-- `normalize_target_uid` (influx_detection.py lines 1–12); takes the
target's `datasource` entry (`.absent` models the `{}` default of
`target.get("datasource", {})`). -/
def normalize_target_uid (ds : DsField) : Except PyErr String :=
  let strip : String → String := fun s =>
    String.mk (replaceSub [braceR] []
      (replaceSub [braceL] [] (replaceSub ['$'] [] s.data)))
  match ds with
  | .absent => .ok ""
  | .null => .error (.typeError "argument of type NoneType is not iterable")
  | .val (.vstr s) =>
    if containsSub ("uid".data) s.data then
      .error (.typeError "string indices must be integers")
    else .ok (strip s)
  | .val (.vobj (some u) _) => .ok (strip u)
  | .val (.vobj none _) => .ok ""

/-- `_ds_list_by_name` builds `{v["name"]: v}` with later entries winning;
name lookup therefore searches the reversed registry. -/
def dsByName (cfg : Cfg) (name : String) : Option DsInfo :=
  cfg.datasources.reverse.lookup name

/-- `_influxdb_like_by_uid` (influx_detection.py lines 69–81); the `typ`
argument is never supplied at the call sites, so the mismatch branch is
dead. -/
def influxdbLikeByUid (cfg : Cfg) (uid : String) : Bool :=
  match cfg.datasources.lookup uid with
  | some info =>
    if info.dstype = "influxdb" then
      if info.version = some "Flux" then false else true
    else false
  | none => false

/-- `_influxdb_like_by_ds_name` (lines 83–90). -/
def influxdbLikeByDsName (cfg : Cfg) (ds : String) : Bool :=
  match dsByName cfg ds with
  | some info =>
    if info.dstype = "influxdb" then
      if info.version = some "Flux" then false else true
    else false
  | none => false

/-- `_basic_ds_type_check` and `_influxdb_datasource_type` (lines 27–35);
`ds = .null` cannot reach this point because `normalize_target_uid` has
already raised for it. -/
def influxdbDatasourceType (dsType : Option String) (ds : DsField) : Bool :=
  dsType = some "influxdb" ||
    (match ds with
     | .val (.vobj _ (some ty)) => ty = "influxdb"
     | _ => false)

/-- `_uid_matches_influx_templating` (lines 37–49): its internal
`normalize_target_uid` call sits in a `try` that downgrades errors to
`False`; the caller has already normalised the same input successfully, so
the computed `uid` is reused.  `templating = none` models the `None`
argument of the recursive call (a `TypeError` caught by the same `try`). -/
def uidMatchesInfluxTemplating (tmpl : Option (List TplItem)) (uid : String) : Bool :=
  match tmpl with
  | none => false
  | some items =>
    items.any fun item =>
      item.name = uid && item.type = "datasource" &&
        item.query = TplQueryVal.qstr "influxdb"

/-- The five OR-ed checks of `is_target_influx` (lines 51–61), shared by the
target itself and the panel-datasource wrapper dictionary. -/
def isTargetInfluxCore (cfg : Cfg) (tmpl : Option (List TplItem))
    (dsType : Option String) (ds : DsField) : Except PyErr Bool :=
  match normalize_target_uid ds with
  | .error e => .error e
  | .ok uid =>
    .ok (influxdbDatasourceType dsType ds ||
      influxdbLikeByUid cfg uid ||
      uidMatchesInfluxTemplating tmpl uid ||
      (match ds with | .val (.vstr s) => influxdbLikeByDsName cfg s | _ => false) ||
      influxdbLikeByDsName cfg uid)

/-- `is_target_influx` (lines 51–67): the core checks, then at most one
recursion through the wrapper `{"datasource": panel_datasource}` with no
panel datasource of its own. -/
def is_target_influx (cfg : Cfg) (tmpl : Option (List TplItem))
    (dsType : Option String) (ds : DsField) (pd : Option DsVal) :
    Except PyErr Bool :=
  match isTargetInfluxCore cfg tmpl dsType ds with
  | .error e => .error e
  | .ok ret =>
    if ret then .ok ret
    else
      match pd with
      | some pdv =>
        match isTargetInfluxCore cfg tmpl none (.val pdv) with
        | .error e => .error e
        | .ok pret => .ok (ret || pret)
      | none => .ok ret

/-- `is_target_influx` applied to a target dictionary. -/
def isTargetInfluxT (cfg : Cfg) (tmpl : Option (List TplItem)) (t : Target)
    (pd : Option DsVal) : Except PyErr Bool :=
  is_target_influx cfg tmpl t.dsType t.datasource pd

/-! ### `convert_to_query` (lines 834–1009) -/

/-- Result of `convert_to_query`: the query string, or the
`("not-influx-target", [], [])` sentinel tuple returned at lines 840–841. -/
inductive QueryOrSentinel where
  | qs (q : String)
  | sentinel
deriving DecidableEq, Repr

/-- Python `str(...)` of a select parameter. -/
def SelVal.pyStr : SelVal → String
  | .s v => v
  | .i v =>
    if v < 0 then "-" ++ String.mk (renderNat v.natAbs)
    else String.mk (renderNat v.natAbs)

/-- Strict code-point order, used for Python's stable `sorted`. -/
def lexLt (a b : List Char) : Bool := lexLe a b && !(lexLe b a)

/-- Stable insertion used to model Python `sorted(…, key=…)`: an element is
placed before the first element whose key is not strictly smaller. -/
def stableInsertByLt (lt : α → α → Bool) (a : α) : List α → List α
  | [] => [a]
  | b :: bs => if lt b a then b :: stableInsertByLt lt a bs else a :: b :: bs

/-- Stable sort (`sorted`) by a strict comparison. -/
def stableSortByLt (lt : α → α → Bool) (l : List α) : List α :=
  l.foldr (stableInsertByLt lt) []

/-- Rendering of a target dictionary inside f-string error messages.  The
Python text interpolates the runtime dictionary (whose exact key order the
structural model does not retain); no theorem depends on this text. -/
def targetStr (t : Target) : String :=
  "target refId=" ++ t.refId

/-- One item of the select-chain loop of `convert_to_query` (lines 847–877).
The accumulator is (value, select_what, alias, modifications). -/
def selectItemStep (target : Target) (st : ConvSt)
    (acc : String × String × String × List String) (item : SelItem) :
    ConvSt × Except PyErr (String × String × String × List String) :=
  let (value, select_what, aliasV, modifications) := acc
  if item.type = "field" then
    match item.params with
    | [] => (st, .error (.indexError "list index out of range"))
    | .s v :: _ =>
      (st, .ok (String.mk (replaceSub ("::tag".data) [] v.data),
        select_what, aliasV, modifications))
    | .i _ :: _ =>
      (st, .error (.attributeError "int object has no attribute replace"))
  else if item.type = "math" then
    let rec strs : List SelVal → Except PyErr (List String)
      | [] => .ok []
      | .s v :: rest => (strs rest).map (v :: ·)
      | .i _ :: _ =>
        .error (.typeError "sequence item: expected str instance, int found")
    match strs item.params with
    | .ok vs => (st, .ok (value, select_what, aliasV, modifications ++ vs))
    | .error e => (st, .error e)
  else if (AGGREGATION_MAP.lookup item.type).isSome then
    let param_str :=
      match item.params with
      | [] => ""
      | p :: _ => ", " ++ String.mk (replaceSub ("::tag".data) [] p.pyStr.data)
    if select_what ≠ "" then
      (st, .ok (value, item.type ++ "(" ++ select_what ++ param_str ++ ")",
        aliasV, modifications))
    else if item.type ≠ "max" ∧ item.type ≠ "last" then
      let aliasPart :=
        if aliasV ≠ "" then " AS " ++ String.mk [dquote] ++ aliasV ++ String.mk [dquote]
        else ""
      (st, .ok (value,
        item.type ++ "(" ++ String.mk [dquote] ++ value ++ String.mk [dquote] ++
          param_str ++ ")" ++ aliasPart,
        aliasV, modifications))
    else (st, .ok acc)
  else if item.type = "alias" then
    match item.params with
    | [] => (st, .error (.indexError "list index out of range"))
    | p :: _ => (st, .ok (value, select_what, p.pyStr, modifications))
  else if item.type = "distinct" then
    (addErr st "Dropping unsupported item type: distinct" "INFO", .ok acc)
  else
    (st, .error (.valueError ("Unknown item type " ++ pyReprStr item.type ++
      " in " ++ targetStr target)))

/-- The `tags` handling of `convert_to_query` (lines 881–975), producing the
extra `where_items` entries. -/
def tagsWhereItems (st : ConvSt) (target : Target) (tags : List Tag) :
    ConvSt × Except PyErr (List String) :=
  if tags.any (fun tg => tg.condition = some "OR") then
    let keys := tags.map (·.key)
    if keys.dedup.length ≠ 1 then
      (st, .error (.valueError "Unsupported OR for tags with different key"))
    else if ¬ tags.all (fun tg => tg.operator = some "=") then
      if ¬ tags.all (fun tg => tg.operator = some "=~") then
        (st, .error (.valueError "Unsupported operator in OR tag"))
      else
        -- regex_parsing = True (lines 905–949)
        let step := fun (acc : List (List Char) × Nat × Nat) (tg : Tag) =>
          let (cleaned, sc, ec) := acc
          let c0 := ((replaceSub ['/'] []
            (replaceSub ("::tag".data) [] tg.value.data)).dropWhile
              isPySpace).reverse.dropWhile isPySpace |>.reverse
          let (c1, sc1) :=
            if csStarts ['^'] c0 then (c0.drop 1, sc + 1)
            else ('.' :: '*' :: c0, sc)
          let (c2, ec1) :=
            if (['$'] : List Char).isSuffixOf c1 then (c1.dropLast, ec + 1)
            else (c1 ++ ['.', '*'], ec)
          (cleaned ++ [c2], sc1, ec1)
        let (cleaned, sc, ec) := tags.foldl step ([], 0, 0)
        let st1 :=
          if ¬ (ec = 0 ∨ ec = cleaned.length) then
            addErr st ("End boundaries are different - resulting regex can be " ++
              "different than intended !!!! Skipping end boundary") "INFO"
          else st
        let st2 :=
          if ¬ (sc = 0 ∨ sc = cleaned.length) then
            addErr st1 ("Start boundaries are different - resulting regex can " ++
              "be different than intended !!!! Skipping start boundary") "INFO"
          else st1
        let new_regex := String.mk [dquote] ++ (keys.head?.getD "") ++
          String.mk [dquote] ++ "=~/^(" ++
          String.intercalate "|" (cleaned.map String.mk) ++ ")$/"
        (st2, .ok [new_regex])
    else
      let values := tags.map fun tg =>
        String.mk (replaceSub ("::tag".data) [] tg.value.data)
      (st, .ok [String.mk [dquote] ++ (keys.head?.getD "") ++ String.mk [dquote] ++
        "=~/^" ++ String.intercalate "|" values ++ "$/"])
  else
    let step := fun (acc : Except PyErr (List String)) (tg : Tag) =>
      match acc with
      | .error e => .error e
      | .ok items =>
        match tg.operator with
        | none => .error (.keyError "operator")
        | some op0 =>
          let op := if op0 = "<>" then "!=" else op0
          .ok (items ++ [String.mk [dquote] ++
            String.mk (replaceSub ("::tag".data) [] tg.key.data) ++
            String.mk [dquote] ++ op ++ tg.value])
    match tags.foldl step (.ok []) with
    | .error e => (st, .error e)
    | .ok items => (st, .ok items)

/-- `convert_to_query` (lines 834–1009). -/
def convert_to_query (st : ConvSt) (target : Target) (_legend : String) :
    ConvSt × Except PyErr QueryOrSentinel :=
  if target.notInfluxTarget = some true then (st, .ok .sentinel)
  else
    match target.select with
    | none =>
      (st, .error (.valueError ("Dashboard " ++ optStr st.currentDashboard ++
        " is invalid, missing select field in target")))
    | some selects =>
      let foldSel := selects.foldl
        (fun (acc : ConvSt × Except PyErr (String × String × String × List String))
            select =>
          match acc with
          | (st, .error e) => (st, .error e)
          | (st, .ok a) =>
            (stableSortByLt (fun i1 i2 =>
                lexLt (i1.type.data.map asciiLower) (i2.type.data.map asciiLower))
              select).foldl
              (fun (acc2 : ConvSt × Except PyErr (String × String × String × List String))
                  item =>
                match acc2 with
                | (st, .error e) => (st, .error e)
                | (st, .ok a) => selectItemStep target st a item)
              (st, .ok a))
        (st, .ok ("", "", "", []))
      match foldSel with
      | (st1, .error e) => (st1, .error e)
      | (st1, .ok (value, select_what0, _, modifications)) =>
        let select_what :=
          if select_what0 = "" then
            String.mk [dquote] ++ value ++ String.mk [dquote]
          else select_what0
        let tagsRes :=
          match target.tags with
          | some tags => tagsWhereItems st1 target tags
          | none => (st1, .ok [])
        match tagsRes with
        | (st2, .error e) => (st2, .error e)
        | (st2, .ok extraItems) =>
          let where_items := "$timeFilter" :: extraItems
          let whereS := "(" ++ String.intercalate " AND " where_items ++ ")"
          match target.groupBy with
          | none => (st2, .error (.keyError "groupBy"))
          | some gbs =>
            let gbFold := gbs.foldl
              (fun (acc : Except PyErr (List String)) group =>
                match acc with
                | .error e => .error e
                | .ok items =>
                  if group.type = "time" then
                    match group.params with
                    | [] => .error (.indexError "list index out of range")
                    | p :: _ => .ok (items ++ [group.type ++ "(" ++ p ++ ")"])
                  else if group.type = "tag" then
                    match group.params with
                    | [] => .error (.indexError "list index out of range")
                    | p :: _ =>
                      .ok (items ++ [String.mk [dquote] ++
                        String.mk (replaceSub ("::tag".data) [] p.data) ++
                        String.mk [dquote]])
                  else if group.type = "fill" then .ok items
                  else
                    .error (.valueError ("Unknown group type " ++ group.type ++
                      " in " ++ targetStr target)))
              (.ok [])
            match gbFold with
            | .error e => (st2, .error e)
            | .ok group_by_items =>
              let group_by :=
                if group_by_items ≠ [] then
                  " GROUP BY " ++ String.intercalate "," group_by_items
                else ""
              if target.measurement = none ∨ target.measurement = some "" then
                (st2, .error (.valueError
                  ("Missing measurement field for target, in dashboard: " ++
                    optStr st2.currentDashboard)))
              else
                (st2, .ok (.qs ("SELECT " ++ select_what ++
                  joinSpace modifications ++ " FROM " ++ String.mk [dquote] ++
                  (target.measurement.getD "") ++ String.mk [dquote] ++
                  " WHERE " ++ whereS ++ group_by)))

/-! ### `convert_query` (lines 800–832) -/

/-- `convert_query` (lines 800–832).  The subquery branch unpacks the
3-tuple of `convert_subquery` into four variables (line 810), so whenever
`convert_subquery` succeeds the branch raises
`ValueError: not enough values to unpack (expected 4, got 3)`. -/
def convert_query (cfg : Cfg) (st : ConvSt) (query : String) (target : Target)
    (legend : String) : ConvSt × Except PyErr (NewTarget × List String × List String) :=
  if containsSub ("<>".data) query.data then
    (st, .error (.valueError ("Unexpected <> found from query " ++ pyReprStr query ++
      ", use != instead")))
  else if containsSub ("(*)".data) query.data then
    (st, .error (.valueError ("Unsupported (*) query in " ++ String.mk [braceL] ++
      "query!r" ++ String.mk [braceR])))
  else if containsSub ("from (".data) (query.data.map asciiLower) then
    match convert_subquery cfg st query with
    | (st1, .ok _) =>
      (st1, .error (.valueError "not enough values to unpack (expected 4, got 3)"))
    | (st1, .error e) => (st1, .error e)
  else
    match convert_expression cfg st query with
    | (st1, .error e) => (st1, .error e)
    | (st1, .ok (expr, over_times, fills, alias_name)) =>
      let fmt := target.resultFormat
      let (st2, legend2) :=
        if containsSub ("$col".data) legend.data then
          match alias_name with
          | some a =>
            if a ≠ "" then
              (st1, String.mk (replaceSub ("$col".data) a.data legend.data))
            else (addErr st1 "Alias not detected, not replacing $col" "WARN", legend)
          | none => (addErr st1 "Alias not detected, not replacing $col" "WARN", legend)
        else (st1, legend)
      let new_target : NewTarget :=
        { expr := expr, format := fmt, instant := fmt = "table", intervalFactor := 1,
          refId := target.refId, legendFormat := legend2, hide := target.hide }
      (st2, .ok (new_target, over_times, fills))

/-! ### `convert_targets` (lines 1036–1088) -/

/-- View of a target-list element as the dictionary `convert_targets` and the
detector read.  For an already-converted target the source-language keys are
simply absent; `resultFormat` is a placeholder that is never read because
re-conversion of a converted target fails at the missing `select` first. -/
def TOut.view : TOut → Target
  | .told t => t
  | .tnew n =>
    { refId := n.refId, resultFormat := "", dsType := none, datasource := .absent,
      rawQuery := none, query := none, measurement := none, select := none,
      tags := none, groupBy := none, aliasStr := none, hide := n.hide,
      notInfluxTarget := n.notInfluxTarget }

/-- The `not-influx-target` flagging of a skipped element (lines 1083–1085):
a deep copy with the flag set. -/
def TOut.flag : TOut → TOut
  | .told t => .told { t with notInfluxTarget := some true }
  | .tnew n => .tnew { n with notInfluxTarget := some true }

/-- `re.sub("  +", " ", query)` (line 1054): two or more literal spaces
collapse to one. -/
def spaceSqueeze (s : List Char) : List Char :=
  subAll (fun l =>
      match l with
      | ' ' :: ' ' :: _ =>
        some ([' '], l.drop (l.takeWhile (· = ' ')).length)
      | _ => none)
    (s.length + 1) s

/-- One iteration of the `convert_targets` loop (lines 1043–1087). -/
def convertOneTarget (cfg : Cfg) (tmpl : Option (List TplItem)) (pd : Option DsVal)
    (st : ConvSt) (t : TOut) :
    ConvSt × Except PyErr (TOut × List String × List String) :=
  let tv := t.view
  match isTargetInfluxT cfg tmpl tv pd with
  | .error e => (st, .error e)
  | .ok true =>
    let legend0 := get_legend_format st tv
    let legend :=
      if legend0 ≠ "" then replace_invalid_metric_characters legend0 else legend0
    if tv.rawQuery = some true then
      match tv.query with
      | none => (st, .error (.keyError "query"))
      | some q =>
        let q1 := String.mk (spaceSqueeze (replaceSub ['\n'] [' '] q.data))
        match convert_query cfg st q1 tv legend with
        | (st1, .error e) => (st1, .error e)
        | (st1, .ok (nt, ot, fi)) => (st1, .ok (.tnew nt, ot, fi))
    else
      match convert_to_query st tv legend with
      | (st1, .error e) => (st1, .error e)
      | (st1, .ok .sentinel) =>
        -- line 1059 binds the sentinel 3-tuple to `query`; `convert_query`
        -- then calls `query.lower()` on it (line 809) — AttributeError.
        (st1, .error (.attributeError "tuple object has no attribute lower"))
      | (st1, .ok (.qs q)) =>
        match convert_query cfg st1 q tv legend with
        | (st2, .error e) => (st2, .error e)
        | (st2, .ok (nt, ot, fi)) => (st2, .ok (.tnew nt, ot, fi))
  | .ok false =>
    let st1 := addErr st "Skipping target - not Influx or is Flux" "DEBUG"
    (st1, .ok (t.flag, [], []))

/-- `convert_targets` (lines 1036–1088). -/
def convert_targets (cfg : Cfg) (tmpl : Option (List TplItem)) (pd : Option DsVal)
    (st : ConvSt) (targets : List TOut) :
    ConvSt × Except PyErr (List TOut × List String × List String) :=
  targets.foldl
    (fun acc t =>
      match acc with
      | (st, .error e) => (st, .error e)
      | (st, .ok (nts, ots, fis)) =>
        match convertOneTarget cfg tmpl pd st t with
        | (st1, .error e) => (st1, .error e)
        | (st1, .ok (nt, ot, fi)) => (st1, .ok (nts ++ [nt], ots ++ ot, fis ++ fi)))
    (st, .ok ([], [], []))

/-! ### `add_to_metric_and_object_list` (lines 161–224) -/

/-- `get_metric_field_from_select` (lines 161–167): the first `field` item of
`select[0]`; `none` when there is none. -/
def get_metric_field_from_select (selects : List (List SelItem)) :
    Except PyErr (Option SelVal) :=
  match selects with
  | [] => .error (.indexError "list index out of range")
  | s0 :: _ =>
    let rec go : List SelItem → Except PyErr (Option SelVal)
      | [] => .ok none
      | item :: rest =>
        if item.type = "field" then
          match item.params with
          | [] => .error (.indexError "list index out of range")
          | p :: _ => .ok (some p)
        else go rest
    go s0

/-- Ordered-dictionary update (Python semantics: an existing key keeps its
position, a new key is appended). -/
def alistSet [DecidableEq κ] (l : List (κ × ν)) (k : κ) (v : ν) : List (κ × ν) :=
  match l with
  | [] => [(k, v)]
  | (k2, v2) :: rest => if k2 = k then (k2, v) :: rest else (k2, v2) :: alistSet rest k v

/-- The index update of lines 214–224: the `try` append succeeds when both
keys exist — and then the unconditional append at line 222 appends the same
object a second time; on `KeyError` the slot is initialised and the object
appended once. -/
def indexAppend (m : MetricIndex) (metric : String) (dash : Option String)
    (obj : MObj) : MetricIndex :=
  match m.lookup metric with
  | some inner =>
    match inner.lookup dash with
    | some l => alistSet m metric (alistSet inner dash (l ++ [obj, obj]))
    | none => alistSet m metric (alistSet inner dash [obj])
  | none => alistSet m metric [(dash, [obj])]

/-- One iteration of `add_to_metric_and_object_list` (lines 177–224) for an
(old target, converted target) pair. -/
def addToMetricOne (cfg : Cfg) (tmpl : Option (List TplItem)) (pd : Option DsVal)
    (st : ConvSt) (old : TOut) (nw : TOut) : ConvSt × Except PyErr Unit :=
  let tv := old.view
  match isTargetInfluxT cfg tmpl tv pd with
  | .error e => (st, .error e)
  | .ok false =>
    (addErr st "Skipping target - not Influx or is Flux" "DEBUG", .ok ())
  | .ok true =>
    let metricRes : ConvSt × Except PyErr String :=
      if tv.rawQuery = some true then
        match tv.query with
        | none => (st, .error (.keyError "query"))
        | some q =>
          match get_metric_name q with
          | .error e => (st, .error e)
          | .ok (series, field) => (st, .ok (series ++ field))
      else
        match tv.measurement with
        | none =>
          (addErr st "Missing measurement field" "INFO", .error (.keyError "measurement"))
        | some meas =>
          match tv.select with
          | none => (st, .error (.keyError "select"))
          | some selects =>
            match get_metric_field_from_select selects with
            | .error e => (st, .error e)
            | .ok (some (.s fieldName)) =>
              if fieldName ≠ "" then (st, .ok (meas ++ "_" ++ fieldName))
              else
                (addErr st "Missing field name" "INFO",
                  .error (.valueError "Missing field name"))
            | .ok (some (.i _)) =>
              (st, .error (.typeError "can only concatenate str to str"))
            | .ok none =>
              (addErr st "Missing field name" "INFO",
                .error (.valueError "Missing field name"))
    match metricRes with
    | (st1, .error e) => (st1, .error e)
    | (st1, .ok metric0) =>
      let metric := replace_invalid_metric_characters metric0
      ({ st1 with metricToObjects :=
          indexAppend st1.metricToObjects metric st1.currentDashboard (.mtout nw) },
        .ok ())

/-- `add_to_metric_and_object_list` (lines 174–224); old and new target lists
are index-aligned (`convert_targets` produces exactly one output element per
input element). -/
def add_to_metric_and_object_list (cfg : Cfg) (tmpl : Option (List TplItem))
    (pd : Option DsVal) (st : ConvSt) (old_targets new_targets : List TOut) :
    ConvSt × Except PyErr Unit :=
  (old_targets.zip new_targets).foldl
    (fun acc (ot, nt) =>
      match acc with
      | (st, .error e) => (st, .error e)
      | (st, .ok ()) => addToMetricOne cfg tmpl pd st ot nt)
    (st, .ok ())

/-! ### `convert_alerts` (lines 315–340) -/

/-- Python `int(s)` on an alert notification uid string: optional sign and
digits after stripping surrounding whitespace; `none` models the
`ValueError`. -/
def parsePyInt (s : String) : Option Int :=
  let l := (s.data.dropWhile isPySpace).reverse.dropWhile isPySpace |>.reverse
  match l with
  | '-' :: rest => (parsePyNat rest).map (fun n => -(n : Int))
  | '+' :: rest => (parsePyNat rest).map (fun n => (n : Int))
  | _ => (parsePyNat l).map (fun n => (n : Int))

/-- Rendering of a notification dictionary in the missing-mapping message;
the Python text interpolates the runtime dictionary. -/
def notifStr (n : Notif) : String :=
  "notification id=" ++ (match n.id with | some i => SelVal.pyStr (.i i) | none => "None") ++
    " uid=" ++ optStr n.uid

/-- `convert_alerts` (lines 315–340).  Without both notification maps the
`notifications` entry is deleted (a `KeyError` if absent); otherwise each
notification is remapped by numeric id, parsed uid, or uid string, failing
with `ValueError` when unmapped, and duplicates are dropped. -/
def convert_alerts (cfg : Cfg) (alert : Alert) : Except PyErr Alert :=
  let mapT : Bool := match cfg.alertNotificationsMap with
    | some l => l ≠ [] | none => false
  let uidMapT : Bool := match cfg.alertNotificationsUidMap with
    | some l => l ≠ [] | none => false
  if !(mapT && uidMapT) then
    match alert.notifications with
    | none => .error (.keyError "notifications")
    | some _ => .ok { alert with notifications := none }
  else
    let newName := alert.name ++ " (M3)"
    match alert.notifications with
    | none => .error (.keyError "notifications")
    | some notifs =>
      let amap := cfg.alertNotificationsMap.getD []
      let umap := cfg.alertNotificationsUidMap.getD []
      let step : Except PyErr (List Notif) → Notif → Except PyErr (List Notif) :=
        fun acc n =>
          match acc with
          | .error e => .error e
          | .ok out =>
            let byId : Option String :=
              match n.id with
              | some i => if i ≠ 0 then amap.lookup i else none
              | none => none
            let resolved : Except PyErr (Option String) :=
              match byId with
              | some u => .ok (some u)
              | none =>
                match n.uid with
                | none => .error (.keyError "uid")
                | some nu =>
                  match parsePyInt nu with
                  | some i => .ok (amap.lookup i)
                  | none => .ok (umap.lookup nu)
            match resolved with
            | .error e => .error e
            | .ok none =>
              .error (.valueError ("Alert mapping for notification " ++
                notifStr n ++ " missing"))
            | .ok (some newUid) =>
              let nn : Notif := { id := none, uid := some newUid }
              if out.contains nn then .ok out else .ok (out ++ [nn])
      match notifs.foldl step (.ok []) with
      | .error e => .error e
      | .ok out => .ok { name := newName, notifications := some out }

/-! ### `convert_panel` / `convert_panels` (lines 1090–1180) -/

/-- The `try` block of `convert_panel` (lines 1117–1166): target conversion,
usage-index update, interval inference, fill handling and alert conversion.
Returns the updated panel (datasource replacement and the row branch are
handled by `convert_panel` itself). -/
def convert_panel_body (cfg : Cfg) (tmpl : Option (List TplItem)) (st : ConvSt)
    (p : Panel) (pd : Option DsVal) : ConvSt × Except PyErr Panel :=
  let afterTargets : ConvSt × Except PyErr Panel :=
    match p.targets with
    | none => (st, .ok p)
    | some targets =>
      match convert_targets cfg tmpl pd st targets with
      | (st1, .error e) => (st1, .error e)
      | (st1, .ok (targets2, over_times_list, fills_list)) =>
        match add_to_metric_and_object_list cfg tmpl pd st1 targets targets2 with
        | (st2, .error e) => (st2, .error e)
        | (st2, .ok ()) =>
          let p1 := match p with
            | .mk a b c d _ f g h i j => Panel.mk a b c d (some targets2) f g h i j
          -- over_times: a Python set, modelled as the duplicate-free list of
          -- first occurrences (`max` and emptiness are order-independent).
          let over0 := over_times_list.dedup
          let over1 := over0.filter fun x =>
            x ≠ "$interval" ∧ x ≠ "$__interval" ∧ x ≠ "$__rate_interval"
          let funny := over1.filter fun x =>
            containsSub ("$__interval".data) x.data ∨
            containsSub ("$Interval".data) x.data ∨
            containsSub ("$unite_interval".data) x.data ∨
            containsSub ("$__rate_interval".data) x.data
          let over2 := over1.filter fun x => ¬ (funny.contains x)
          let st3 := funny.foldl (fun s _ =>
            addErr s "Dropping unsupported interval" "INFO") st2
          let intervalRes : Except PyErr (Option String) :=
            if over2.length > 0 ∧ ¬ optStrTruthy p1.interval ∧
                ¬ over2.contains "$__range" then
              match over2.mapM (fun x => durationToSeconds x) with
              | .error e => .error e
              | .ok secs =>
                let m := secs.foldl max 0
                if m ≠ SCRAPE_INTERVAL_SECONDS then .ok (some (secondsToDuration m))
                else .ok none
            else .ok none
          match intervalRes with
          | .error e => (st3, .error e)
          | .ok newInterval =>
            let p2 := match newInterval with
              | some ov => (match p1 with
                | .mk a b c d e f g _ i j => Panel.mk a b c d e f g (some ov) i j)
              | none => p1
            let fills0 := fills_list.dedup.filter (· ≠ "null")
            let hasZero := fills0.contains "0"
            let fills1 := fills0.filter (· ≠ "0")
            let p3 :=
              if hasZero then
                (match p2 with
                 | .mk a b c d e f g h _ j =>
                   Panel.mk a b c d e f g h (some "null as zero") j)
              else p2
            let st4 :=
              if fills1 ≠ [] then addErr st3 "Unsupported fills" "INFO" else st3
            (st4, .ok p3)
  match afterTargets with
  | (stA, .error e) => (stA, .error e)
  | (stA, .ok pA) =>
    match pA.alert with
    | none => (stA, .ok pA)
    | some alert =>
      match convert_alerts cfg alert with
      | .error e => (stA, .error e)
      | .ok alert2 =>
        (stA, .ok (match pA with
          | .mk a b c d e _ g h i j => Panel.mk a b c d e (some alert2) g h i j))

/-- The panel datasource handed to the target detector (lines 1092–1098):
the panel's own entry, or the `influxdb`-typed placeholder. -/
def panelPd : DsField → Option DsVal
  | .val v => some v
  | _ => some (.vobj none (some "influxdb"))

/-- The panel datasource replacement (lines 1105–1109); the
`elif self.datasource_map` branch (lines 1110–1116) is dead because
`replacement_datasource` is always truthy (constructor assertion). -/
def panelDsReplace (cfg : Cfg) : DsField → DsField
  | .absent => .absent
  | _ => .val (.vobj (some cfg.replacementDatasource.uid)
      (some cfg.replacementDatasource.dstype))

mutual

/-- `convert_panel` (lines 1090–1176): row panels recurse into their
children; otherwise the datasource is replaced, the `try` body runs, a
`ValueError` is downgraded to dropping the panel's targets and alert plus
one recorded error, and series overrides are rewritten last. -/
def convert_panel (cfg : Cfg) (tmpl : Option (List TplItem)) (st : ConvSt) :
    Panel → ConvSt × Except PyErr Panel
  | .mk a b c d e f g h i children =>
    if c = "row" then
      match convert_panels cfg tmpl st children with
      | (st1, .error er) => (st1, .error er)
      | (st1, .ok children2) =>
        (st1, .ok (Panel.mk a b c d e f g h i children2))
    else
      let pd : Option DsVal := panelPd d
      let d1 : DsField := panelDsReplace cfg d
      let p1 := Panel.mk a b c d1 e f g h i children
      let afterTry : ConvSt × Except PyErr Panel :=
        match convert_panel_body cfg tmpl st p1 pd with
        | (st1, .ok p2) => (st1, .ok p2)
        | (st1, .error (.valueError m)) =>
          let p2 := match p1 with
            | .mk a2 b2 c2 d2 _ _ g2 h2 i2 j2 =>
              Panel.mk a2 b2 c2 d2 none none g2 h2 i2 j2
          (addErr st1 ("Unable to convert - " ++ m) "ERROR", .ok p2)
        | (st1, .error er) => (st1, .error er)
      match afterTry with
      | (st1, .error er) => (st1, .error er)
      | (st1, .ok p2) =>
        match p2.seriesOverrides with
        | some l =>
          if l ≠ [] then
            (st1, .ok (match p2 with
              | .mk a2 b2 c2 d2 e2 f2 _ h2 i2 j2 =>
                Panel.mk a2 b2 c2 d2 e2 f2 (some (convert_series_overrides l)) h2 i2 j2))
          else (st1, .ok p2)
        | none => (st1, .ok p2)

/-- `convert_panels` (lines 1178–1180). -/
def convert_panels (cfg : Cfg) (tmpl : Option (List TplItem)) (st : ConvSt) :
    List Panel → ConvSt × Except PyErr (List Panel)
  | [] => (st, .ok [])
  | p :: rest =>
    match convert_panel cfg tmpl st p with
    | (st1, .error er) => (st1, .error er)
    | (st1, .ok p2) =>
      match convert_panels cfg tmpl st1 rest with
      | (st2, .error er) => (st2, .error er)
      | (st2, .ok ps) => (st2, .ok (p2 :: ps))

end

/-! ### `convert_templating` (lines 232–313) -/

/-- Extraction of the template query string (lines 245–249): a dictionary
query with a truthy inner `query` unwraps; otherwise the dictionary itself
reaches `query.lower()` at line 252 and raises `AttributeError`. -/
def tplQueryStr : TplQueryVal → Except PyErr String
  | .qstr s => .ok s
  | .qdict (some s) =>
    if s ≠ "" then .ok s
    else .error (.attributeError "dict object has no attribute lower")
  | .qdict none => .error (.attributeError "dict object has no attribute lower")

/-- The terminator class `['|\"\ ]` of the templating patterns. -/
def isTplDelim (c : Char) : Bool := c = squote ∨ c = '|' ∨ c = dquote ∨ c = ' '

/-- The `\s?['|\"\ ](?P<key>.+?)(?:['|\"\ ]|$)` tail of the templating
patterns, applied after the `=` sign.  The optional whitespace backtracks:
the delimiter class itself contains the space character, so when no quote
follows the space the space itself serves as the delimiter.  `minK` is the
minimal key length (`.+?` vs `.*?`). -/
def tplKeyAfterEq (minK : Nat) (w2 : List Char) : Option (List Char) :=
  let fromDelim : List Char → Option (List Char) := fun w3 =>
    match w3 with
    | c1 :: w4 =>
      if isTplDelim c1 then
        lazyGrow w4 (fun key rest2 =>
            match rest2 with
            | [] => some key
            | c2 :: _ => if isTplDelim c2 then some key else none)
          minK ((w4.takeWhile (· ≠ '\n')).length + 1)
      else none
    | [] => none
  match w2 with
  | c :: rest =>
    if isPySpace c then
      match fromDelim rest with
      | some k => some k
      | none => fromDelim w2
    else fromDelim w2
  | [] => none

/-- Matcher for pattern 1 (line 256):
`SHOW TAG VALUES FROM ['|\"]?(?P<tag>.+?)['|\"]? WITH KEY\s?=\s?['|\"\ ](?P<key>.+?)(?:['|\"\ ]|$)`
(`re.IGNORECASE`); returns (tag, key). -/
def tryShowTagFrom (s : List Char) : Option (List Char × List Char) :=
  if ciStarts ("show tag values from ".data) s then
    let t := s.drop 21
    let tailAt : List Char → List Char → Option (List Char × List Char) :=
      fun tag v =>
        if ciStarts (" with key".data) v then
          let w0 := v.drop 9
          let w1 := if w0.head?.any isPySpace then w0.drop 1 else w0
          match w1 with
          | '=' :: w2 => (tplKeyAfterEq 1 w2).map fun key => (tag, key)
          | _ => none
        else none
    let attempt : List Char → Option (List Char × List Char) := fun u =>
      lazyGrow u (fun tag rest =>
          match rest with
          | c :: rest2 =>
            if c = squote ∨ c = '|' ∨ c = dquote then
              match tailAt tag rest2 with
              | some r => some r
              | none => tailAt tag rest
            else tailAt tag rest
          | [] => tailAt tag rest)
        1 (u.takeWhile (· ≠ '\n')).length
    match t with
    | c :: t2 =>
      if c = squote ∨ c = '|' ∨ c = dquote then
        match attempt t2 with
        | some r => some r
        | none => attempt t
      else attempt t
    | [] => none
  else none

/-- Matcher for pattern 2 (line 260):
`SHOW TAG VALUES WITH KEY\s?=\s?['|\"\ ](?P<key>.*?)(?:['|\"\ ]|$)`
(`re.IGNORECASE`); the key may be empty. -/
def tryShowTagNoFrom (s : List Char) : Option (List Char) :=
  if ciStarts ("show tag values with key".data) s then
    let w0 := s.drop 24
    let w1 := if w0.head?.any isPySpace then w0.drop 1 else w0
    match w1 with
    | '=' :: w2 => tplKeyAfterEq 0 w2
    | _ => none
  else none

/-- Matcher for pattern 3 (line 265):
`show tag values from (?P<tag>.+?) with key\s?=~\s+\/(?P<key>.+?)\/`
(`re.IGNORECASE`); returns (tag, key). -/
def tryShowTagRegex (s : List Char) : Option (List Char × List Char) :=
  if ciStarts ("show tag values from ".data) s then
    let t := s.drop 21
    lazyGrow t (fun tag rest =>
        if ciStarts (" with key".data) rest then
          let w0 := rest.drop 9
          let w1 := if w0.head?.any isPySpace then w0.drop 1 else w0
          match w1 with
          | '=' :: '~' :: w2 =>
            if w2.head?.any isPySpace then
              match w2.dropWhile isPySpace with
              | '/' :: w3 =>
                lazyGrow w3 (fun key rest2 =>
                    match rest2 with
                    | '/' :: _ => if key ≠ [] then some (tag, key) else none
                    | _ => none)
                  1 (w3.takeWhile (· ≠ '\n')).length
              | _ => none
            else none
          | _ => none
        else none)
      1 (t.takeWhile (· ≠ '\n')).length
  else none

/-- One templating item (the loop body of lines 234–311).  Returns `none`
for a deleted `show field keys` item, otherwise the converted item together
with the recorded back-fill metric (the `_get_rep_metric` entry). -/
def convert_templating_item (cfg : Cfg) (st : ConvSt) (item : TplItem) :
    ConvSt × Except PyErr (Option (TplItem × Option String)) :=
  if item.type = "query" then
    let item1 := { item with
      datasource := .val (.vobj (some cfg.replacementDatasource.uid)
        (some cfg.replacementDatasource.dstype)),
      sort := some 3 }
    match tplQueryStr item.query with
    | .error e => (st, .error e)
    | .ok query =>
      if csStarts ("show field keys".data) (query.data.map asciiLower) then
        (st, .ok none)
      else
        match scanFirst tryShowTagFrom query.data with
        | some (tag, key) => convertTemplatingMatched cfg st item1 (some tag) key
        | none =>
          match scanFirst tryShowTagNoFrom query.data with
          | some key => convertTemplatingMatched cfg st item1 none key
          | none =>
            -- pattern 3 is attempted and the static-conversion warning is
            -- recorded whether or not it matches (lines 264–270)
            let st1 := addErr st ("REGEXP show tag values is not supported in " ++
              "Prometheus, converting to STATIC") "WARN"
            match scanFirst tryShowTagRegex query.data with
            | some (tag, key) => convertTemplatingMatched cfg st1 item1 (some tag) key
            | none =>
              (st1, .error (.valueError ("Unable to find tag values or key from " ++
                pyReprStr query)))
  else if item.type = "custom" ∨ item.type = "interval" ∨ item.type = "datasource" then
    (st, .ok (some (item, none)))
  else
    (st, .error (.valueError ("Unknown template type for item " ++ tplItemStr item)))
where
  /-- Rendering of the item dictionary in the unknown-kind message (the
  Python text interpolates the runtime dictionary). -/
  tplItemStr (it : TplItem) : String := "template item name=" ++ it.name
  /-- Lines 275–307: key/metric post-processing, query rewrite, `allValue`
  fix and back-fill registration. -/
  convertTemplatingMatched (_cfg : Cfg) (st : ConvSt) (it : TplItem)
      (tagOpt : Option (List Char)) (keyRaw : List Char) :
      ConvSt × Except PyErr (Option (TplItem × Option String)) :=
    let key := replace_invalid_metric_characters (String.mk keyRaw)
    let metric1 : Option String := tagOpt.map fun tg =>
      let m1 := replace_invalid_metric_characters (String.mk tg)
      let m2 := if csStarts ['/'] m1.data then
          String.mk (replaceSub ['/'] [] m1.data)
        else m1
      if containsSub ('.' :: ['*']) m2.data then
        String.mk (replaceSub [')'] [] (replaceSub ['('] []
          (replaceSub ('.' :: ['*']) [] m2.data)))
      else m2
    -- TEMPLATING_METRIC_STATIC_CONVERSION is the empty table (line 86)
    let metric2 := match metric1 with
      | some m => (TEMPLATING_METRIC_STATIC_CONVERSION.lookup m).getD m
      | none => ""
    let truthy := metric1.isSome ∧ metric2 ≠ ""
    let metric3 := String.mk (replaceSub ['/'] [] metric2.data)
    let new_query :=
      if truthy then "label_values(" ++ metric3 ++ "," ++ key ++ ")"
      else "label_values(" ++ key ++ ")"
    let it2 := { it with query := .qstr new_query, definition := some new_query }
    let it3 :=
      if it2.allValue = some "*" then { it2 with allValue := some ".*" } else it2
    (st, .ok (some (it3, if truthy then some metric3 else none)))

/-- One fold step of `convert_templating`: thread the state, stop at the
first exception, skip deleted items, append kept ones. -/
def convertTemplatingStep (cfg : Cfg)
    (acc : ConvSt × Except PyErr (List (TplItem × Option String)))
    (item : TplItem) : ConvSt × Except PyErr (List (TplItem × Option String)) :=
  match acc with
  | (st, .error e) => (st, .error e)
  | (st, .ok kept) =>
    match convert_templating_item cfg st item with
    | (st1, .error e) => (st1, .error e)
    | (st1, .ok none) => (st1, .ok kept)
    | (st1, .ok (some pr)) => (st1, .ok (kept ++ [pr]))

/-- `convert_templating` (lines 232–313): convert each item in order,
deleting the `show field keys` ones afterwards; the converted list is
returned together with the `_get_rep_metric` entries (metric and position of
the item in the returned list). -/
def convert_templating (cfg : Cfg) (st : ConvSt) (items : List TplItem) :
    ConvSt × Except PyErr (List TplItem × List (Bool × String × Nat)) :=
  let folded := items.foldl (convertTemplatingStep cfg) (st, .ok [])
  match folded with
  | (st1, .error e) => (st1, .error e)
  | (st1, .ok kept) =>
    let reps := (kept.enum.filterMap fun (idx, (_, m)) =>
      m.map fun metric => (true, metric, idx))
    (st1, .ok (kept.map (·.1), reps))

/-! ### `_update_label_values_metric` (lines 1215–1244) and
`convert_dashboard` (lines 1182–1213) -/

/-- `metric.rsplit("_", maxsplit=1)`: split at the last underscore; `none`
when the name has no underscore (the `len < 2` skip). -/
def rsplitUnderscore (l : List Char) : Option (List Char × List Char) :=
  match l with
  | [] => none
  | c :: rest =>
    match rsplitUnderscore rest with
    | some (before, after) => some (c :: before, after)
    | none => if c = '_' then some ([], rest) else none

/-- The inner key scan of `_update_label_values_metric` (lines 1221–1243)
for one recorded metric: find the first index key whose text before its last
underscore equals the recorded token (or that equals the token outright),
rewrite the template item's query and append the item under that key, then
stop (`break`). -/
def updateOneRep (st : ConvSt) (tpl : List TplItem) (dashMetric : String)
    (idx : Nat) : ConvSt × List TplItem :=
  let rec go : List String → ConvSt × List TplItem
    | [] => (st, tpl)
    | metric :: rest =>
      match rsplitUnderscore metric.data with
      | none => go rest
      | some (before, _) =>
        if String.mk before = dashMetric ∨ metric = dashMetric then
          match tpl.get? idx with
          | none => (st, tpl)
          | some item =>
            let item2 :=
              match item.query with
              | .qstr s =>
                let newq := TplQueryVal.qstr
                  (String.mk (replaceSub dashMetric.data metric.data s.data))
                { item with query := newq }
              | .qdict _ => item
            let tpl2 := tpl.set idx item2
            match st.metricToObjects.lookup metric with
            | some inner =>
              match inner.lookup st.currentDashboard with
              | some l =>
                let inner2 := alistSet inner st.currentDashboard (l ++ [.mtempl item2])
                let m2 := alistSet st.metricToObjects metric inner2
                ({ st with metricToObjects := m2 }, tpl2)
              | none =>
                (addErr st "Invalid dashboard on templating replacement split"
                  "ERROR", tpl2)
            | none =>
              (addErr st "Invalid dashboard on templating replacement split"
                "ERROR", tpl2)
        else go rest
  go (st.metricToObjects.map (·.1))

/-- `_update_label_values_metric` (lines 1215–1244): process every recorded
entry whose flag is set, then clear the list. -/
def update_label_values_metric (st : ConvSt) (tpl : List TplItem) :
    ConvSt × List TplItem :=
  let (st1, tpl1) := st.getRepMetric.foldl
    (fun (acc : ConvSt × List TplItem) (r : Bool × String × Nat) =>
      let (st, tpl) := acc
      if r.1 then updateOneRep st tpl r.2.1 r.2.2 else acc)
    (st, tpl)
  ({ st1 with getRepMetric := [] }, tpl1)

/-- `convert_dashboard` (lines 1182–1213): set the dashboard context,
convert panels (including legacy `rows`), then templating — a templating
`ValueError` is re-raised as the dashboard-level `ConvertError` — then run
the back-fill pass once if any recorded entry is flagged. -/
def convert_dashboard (cfg : Cfg) (st : ConvSt) (d : Dashboard) :
    ConvSt × Except DashErr Dashboard :=
  let tmpl := d.templating
  let st1 := { st with currentDashboard := d.title }
  match convert_panels cfg tmpl st1 d.panels with
  | (st2, .error e) => (st2, .error (.py e))
  | (st2, .ok panels2) =>
    let rowsFold := d.rows.foldl
      (fun (acc : ConvSt × Except PyErr (List (List Panel))) row =>
        match acc with
        | (st, .error e) => (st, .error e)
        | (st, .ok rows) =>
          match convert_panels cfg tmpl st row with
          | (st1, .error e) => (st1, .error e)
          | (st1, .ok row2) => (st1, .ok (rows ++ [row2])))
      (st2, .ok [])
    match rowsFold with
    | (st3, .error e) => (st3, .error (.py e))
    | (st3, .ok rows2) =>
      let tplRes : ConvSt × Except DashErr (Option (List TplItem)) :=
        match d.templating with
        | none => (st3, .ok none)
        | some items =>
          match convert_templating cfg st3 items with
          | (st4, .error (.valueError m)) => (st4, .error (.convertError m))
          | (st4, .error e) => (st4, .error (.py e))
          | (st4, .ok (items2, reps)) =>
            ({ st4 with getRepMetric := st4.getRepMetric ++ reps }, .ok (some items2))
      match tplRes with
      | (st4, .error e) => (st4, .error e)
      | (st4, .ok tplOut) =>
        let (st5, tplOut2) :=
          if st4.getRepMetric.any (·.1) then
            match tplOut with
            | some items =>
              let (stU, itemsU) := update_label_values_metric st4 items
              (stU, some itemsU)
            | none =>
              let (stU, _) := update_label_values_metric st4 []
              (stU, none)
          else (st4, tplOut)
        (st5, .ok { d with panels := panels2, rows := rows2, templating := tplOut2 })

/-! ### Small projections used by the statements below -/

/-- The error of an `Except` result, when it is one. -/
def errOf : Except ε α → Option ε
  | .error e => some e
  | .ok _ => none

/-- Whether a metric-usage index holds any templating back-fill entry. -/
def indexHasTemplEntry (m : MetricIndex) : Bool :=
  m.any fun kv => kv.2.any fun dv => dv.2.any fun o =>
    match o with | .mtempl _ => true | .mtout _ => false

/-! ### Concrete fixtures for the witnesses and counterexamples -/

/-- A converter configuration: empty datasource registry, a Prometheus
replacement datasource, no alert maps, the default 30 s scrape interval. -/
def cfgFix : Cfg := ⟨[], ⟨"u1", "prometheus"⟩, none, none, 30⟩

/-- The converter state right after construction (`_current_dashboard = ""`,
empty index, no errors). -/
def stFix : ConvSt := ⟨[], [], none, [], some ""⟩

/-- A structured target: `mean` of the given field from the given
measurement, declared as an InfluxDB target. -/
def mkMeanTarget (meas field : String) : Target :=
  { refId := "A", resultFormat := "time_series", dsType := some "influxdb",
    datasource := .absent, rawQuery := none, query := none,
    measurement := some meas,
    select := some [[⟨"field", [.s field]⟩, ⟨"mean", []⟩]],
    tags := none, groupBy := some [], aliasStr := none, hide := none,
    notInfluxTarget := none }

/-- The `net` tag-values discovery variable of the back-fill scenario. -/
def tplNet : TplItem :=
  { type := "query", name := "host",
    query := .qstr "SHOW TAG VALUES FROM \"net\" WITH KEY = \"host\"",
    datasource := .absent, definition := none, sort := none, allValue := none }

/-- Panel with the two `net` targets of the back-fill scenario. -/
def panelC1 : Panel :=
  .mk 1 (some "p") "graph" .absent
    (some [.told (mkMeanTarget "net" "bytes_recv"),
           .told (mkMeanTarget "net" "bytes_sent")])
    none none none none []

/-- The back-fill scenario dashboard: templating discovery on measurement
`net`, panels producing metrics `net_bytes_recv` and `net_bytes_sent`. -/
def dashC1 : Dashboard :=
  { uid := "d1", title := some "Dash", templating := some [tplNet],
    panels := [panelC1], rows := [] }

/-- Variant whose single metric `net_err` has exactly one token after the
measurement name, the only shape the back-fill key comparison accepts. -/
def dashC1b : Dashboard :=
  { uid := "d1", title := some "Dash", templating := some [tplNet],
    panels := [.mk 1 (some "p") "graph" .absent
      (some [.told (mkMeanTarget "net" "err")]) none none none none []],
    rows := [] }

/-- OR-joined tag pair with one shared key and equality operators. -/
def tagsOrSame : List Tag :=
  [⟨"host", "a", some "=", none⟩, ⟨"host", "b", some "=", some "OR"⟩]

/-- OR-joined tag pair with two different keys. -/
def tagsOrMixed : List Tag :=
  [⟨"host", "a", some "=", none⟩, ⟨"dc", "b", some "=", some "OR"⟩]

/-- OR-group target with one shared key and equality operators. -/
def targetOrSame : Target :=
  { mkMeanTarget "m" "x" with tags := some tagsOrSame }

/-- OR-group target with two different keys. -/
def targetOrMixed : Target :=
  { mkMeanTarget "m" "x" with tags := some tagsOrMixed }

/-- Raw-query target whose group-by window `time(1y)` uses the duration unit
`y`, which `_duration_to_seconds` does not implement. -/
def target1y : Target :=
  { refId := "A", resultFormat := "time_series", dsType := some "influxdb",
    datasource := .absent, rawQuery := some true,
    query := some "SELECT mean(\"x\") FROM \"m\" WHERE $timeFilter GROUP BY time(1y)",
    measurement := none, select := none, tags := none, groupBy := none,
    aliasStr := none, hide := none, notInfluxTarget := none }

def panel1y : Panel :=
  .mk 1 (some "p") "graph" .absent (some [.told target1y]) none none none none []

/-- An InfluxDB target without a `select` entry (a caught `ValueError`). -/
def targetNoSelect : Target :=
  { refId := "A", resultFormat := "time_series", dsType := some "influxdb",
    datasource := .absent, rawQuery := none, query := none, measurement := none,
    select := none, tags := none, groupBy := none, aliasStr := none,
    hide := none, notInfluxTarget := none }

def panelNoSelect : Panel :=
  .mk 1 (some "p") "graph" .absent (some [.told targetNoSelect]) none none none none []

/-- A minimal target no detector signal accepts. -/
def targetPlain : Target :=
  { refId := "A", resultFormat := "time_series", dsType := none,
    datasource := .absent, rawQuery := none, query := none, measurement := none,
    select := none, tags := none, groupBy := none, aliasStr := none,
    hide := none, notInfluxTarget := none }

/-- A non-InfluxDB panel datasource. -/
def pdProm : Option DsVal := some (.vobj none (some "prometheus"))

/-- A templating variable whose discovery query matches none of the
recognised shapes. -/
def tplBadShape : TplItem :=
  { type := "query", name := "v", query := .qstr "SHOW SERIES",
    datasource := .absent, definition := none, sort := none, allValue := none }

/-- Dashboard whose templating conversion fails. -/
def dashBadTpl : Dashboard :=
  { uid := "d2", title := some "Dash2", templating := some [tplBadShape],
    panels := [], rows := [] }

/-- Total view of a template query value as text (for stating results). -/
def tplQView : TplQueryVal → String
  | .qstr q => q
  | .qdict q => q.getD ""

/-- The converted dashboard's templating as (query text, definition) pairs
(empty on a failed conversion). -/
def dashTplInfo (r : ConvSt × Except DashErr Dashboard) :
    List (String × Option String) :=
  match r.2 with
  | (.ok d) => (d.templating.getD []).map fun (it : TplItem) =>
      (tplQView it.query, it.definition)
  | (.error _) => []

/-- The produced expression of a converted (new-style) target, when the
conversion succeeded. -/
def exprOfOut (r : ConvSt × Except PyErr (TOut × List String × List String)) :
    Option String :=
  match r.2 with
  | (.ok (.tnew nt, _, _)) => some nt.expr
  | _ => none

/-- The plain target of the no-op scenario, already flagged by a previous
`convert_targets` run. -/
def targetFlagged : Target := { targetPlain with notInfluxTarget := some true }

/-- The query of the `instant`/`intervalFactor` scenario. -/
def qC9 : String := "SELECT mean(\"x\") FROM \"m\" WHERE $timeFilter"

/-- A raw target whose `resultFormat` is `table`. -/
def tC9 : Target := { targetNoSelect with resultFormat := "table" }

/-- The converter state coming out of that conversion. -/
def stC9 : ConvSt := (convert_query cfgFix stFix qC9 tC9 "").1

/-- The produced destination target of that conversion. -/
def ntC9 : NewTarget :=
  { expr := "avg(m_x)", format := "table", instant := true, intervalFactor := 1,
    refId := "A", legendFormat := "", hide := none, notInfluxTarget := none }

/-- A custom template variable. -/
def tplCustom : TplItem :=
  { type := "custom", name := "c", query := .qstr "a,b", datasource := .absent,
    definition := none, sort := none, allValue := none }

/-- A template variable of an unrecognised kind. -/
def tplUnknown : TplItem :=
  { type := "adhoc", name := "u", query := .qstr "", datasource := .absent,
    definition := none, sort := none, allValue := none }

/-- A query variable with a deprecated `show field keys` discovery query. -/
def tplSfk : TplItem :=
  { type := "query", name := "f", query := .qstr "SHOW FIELD KEYS FROM m",
    datasource := .absent, definition := none, sort := none, allValue := none }

/-- The panel of the caught-`ValueError` scenario after datasource
replacement. -/
def panelNoSelectReplaced : Panel :=
  Panel.mk 1 (some "p") "graph" (panelDsReplace cfgFix .absent)
    (some [.told targetNoSelect]) none none none none []

/-- The state after the failing `try` body of that panel. -/
def stBodyC5 : ConvSt :=
  (convert_panel_body cfgFix none stFix panelNoSelectReplaced (panelPd .absent)).1

/-- The state after the failing templating conversion of `dashBadTpl`. -/
def stTplC5 : ConvSt :=
  (convert_templating cfgFix
    { stFix with currentDashboard := dashBadTpl.title } [tplBadShape]).1

/-! ### Supporting lemmas -/

theorem lexLe_total : ∀ a b : List Char, lexLe a b = true ∨ lexLe b a = true
  | [], _ => Or.inl rfl
  | _ :: _, [] => Or.inr rfl
  | a :: as, b :: bs => by
    rcases Nat.lt_trichotomy a.toNat b.toNat with h | h | h
    · left; simp [lexLe, h]
    · have h1 : ¬ a.toNat < b.toNat := by omega
      have h2 : ¬ b.toNat < a.toNat := by omega
      rcases lexLe_total as bs with ih | ih
      · left; simp [lexLe, h1, h2, ih]
      · right; simp [lexLe, h1, h2, ih]
    · right; simp [lexLe, h, Nat.lt_asymm h]

theorem lexLe_trans :
    ∀ a b c : List Char, lexLe a b = true → lexLe b c = true → lexLe a c = true
  | [], _, _, _, _ => rfl
  | _ :: _, [], _, hab, _ => by simp [lexLe] at hab
  | _ :: _, _ :: _, [], _, hbc => by simp [lexLe] at hbc
  | a :: as, b :: bs, c :: cs, hab, hbc => by
    simp only [lexLe] at hab hbc ⊢
    by_cases h1 : a.toNat < b.toNat
    · by_cases h2 : b.toNat < c.toNat
      · rw [if_pos (show a.toNat < c.toNat by omega)]
      · rw [if_neg h2] at hbc
        by_cases h3 : c.toNat < b.toNat
        · rw [if_pos h3] at hbc; exact absurd hbc (by simp)
        · rw [if_pos (show a.toNat < c.toNat by omega)]
    · rw [if_neg h1] at hab
      by_cases h1' : b.toNat < a.toNat
      · rw [if_pos h1'] at hab; exact absurd hab (by simp)
      · rw [if_neg h1'] at hab
        by_cases h2 : b.toNat < c.toNat
        · rw [if_pos (show a.toNat < c.toNat by omega)]
        · rw [if_neg h2] at hbc
          by_cases h3 : c.toNat < b.toNat
          · rw [if_pos h3] at hbc; exact absurd hbc (by simp)
          · rw [if_neg h3] at hbc
            rw [if_neg (show ¬ a.toNat < c.toNat by omega),
              if_neg (show ¬ c.toNat < a.toNat by omega)]
            exact lexLe_trans as bs cs hab hbc

instance : IsTotal String (fun a b => strLe a b = true) :=
  ⟨fun a b => lexLe_total a.data b.data⟩

instance : IsTrans String (fun a b => strLe a b = true) :=
  ⟨fun a b c => lexLe_trans a.data b.data c.data⟩

theorem digitVal_digitCh {d : Nat} (h : d < 10) : digitVal (digitCh d) = d := by
  interval_cases d <;> rfl

theorem isDigitCh_digitCh {d : Nat} (h : d < 10) : isDigitCh (digitCh d) = true := by
  interval_cases d <;> rfl

theorem natDigitsRevAux_congr : ∀ f₁ f₂ n, n < f₁ → n < f₂ →
    natDigitsRevAux f₁ n = natDigitsRevAux f₂ n := by
  intro f₁
  induction f₁ with
  | zero => intro f₂ n h _; omega
  | succ f ih =>
    intro f₂ n h1 h2
    cases f₂ with
    | zero => omega
    | succ g =>
      simp only [natDigitsRevAux]
      by_cases h : n < 10
      · rw [if_pos h, if_pos h]
      · rw [if_neg h, if_neg h]
        have hd : n / 10 < n := Nat.div_lt_self (by omega) (by omega)
        rw [ih g (n / 10) (by omega) (by omega)]

theorem natDigitsRevAux_succ (fuel n : Nat) : natDigitsRevAux (fuel + 1) n =
    if n < 10 then [digitCh n] else digitCh (n % 10) :: natDigitsRevAux fuel (n / 10) := by
  simp only [natDigitsRevAux]

theorem natDigitsRev_eq (n : Nat) : natDigitsRev n =
    if n < 10 then [digitCh n] else digitCh (n % 10) :: natDigitsRev (n / 10) := by
  rw [show natDigitsRev n = natDigitsRevAux (n + 1) n from rfl, natDigitsRevAux_succ]
  by_cases h : n < 10
  · rw [if_pos h, if_pos h]
  · rw [if_neg h, if_neg h]
    rw [show natDigitsRev (n / 10) = natDigitsRevAux (n / 10 + 1) (n / 10) from rfl]
    rw [natDigitsRevAux_congr n (n / 10 + 1) (n / 10)
      (Nat.div_lt_self (by omega) (by omega)) (by omega)]

theorem natDigitsRev_all_digits (n : Nat) : (natDigitsRev n).all isDigitCh = true := by
  induction n using Nat.strong_induction_on with
  | _ n ih =>
    rw [natDigitsRev_eq]
    split
    · next h => simp [isDigitCh_digitCh h]
    · next h =>
      have hd : n / 10 < n := Nat.div_lt_self (by omega) (by omega)
      simp [isDigitCh_digitCh (Nat.mod_lt _ (by omega)), ih _ hd]

theorem natDigitsRev_ne_nil (n : Nat) : natDigitsRev n ≠ [] := by
  rw [natDigitsRev_eq]; split <;> simp

theorem renderNat_all_digits (n : Nat) : (renderNat n).all isDigitCh = true := by
  have h := natDigitsRev_all_digits n
  rw [List.all_eq_true] at h ⊢
  intro a ha
  exact h a (by simpa [renderNat] using ha)

theorem renderNat_ne_nil (n : Nat) : renderNat n ≠ [] := by
  simp [renderNat, natDigitsRev_ne_nil n]

theorem digitsVal_append_digit (l : List Char) (c : Char) :
    digitsVal (l ++ [c]) = digitsVal l * 10 + digitVal c := by
  simp [digitsVal, List.foldl_append]

theorem digitsVal_renderNat (n : Nat) : digitsVal (renderNat n) = n := by
  suffices h : ∀ n a, List.foldl (fun acc c => acc * 10 + digitVal c) a
      ((natDigitsRev n).reverse) = a * 10 ^ (natDigitsRev n).length + n by
    have := h n 0
    simpa [digitsVal, renderNat] using this
  intro n
  induction n using Nat.strong_induction_on with
  | _ n ih =>
    intro a
    rw [natDigitsRev_eq]
    split
    · next h =>
      simp [digitVal_digitCh h]
    · next h =>
      have hd : n / 10 < n := Nat.div_lt_self (by omega) (by omega)
      have hrec := ih _ hd a
      simp only [List.reverse_cons, List.foldl_append, List.foldl_cons,
        List.foldl_nil, hrec, List.length_cons]
      have hm : n % 10 < 10 := Nat.mod_lt _ (by omega)
      rw [digitVal_digitCh hm]
      have : n = 10 * (n / 10) + n % 10 := (Nat.div_add_mod n 10).symm ▸ rfl
      ring_nf
      omega

theorem parsePyNat_renderNat (n : Nat) : parsePyNat (renderNat n) = some n := by
  simp [parsePyNat, renderNat_ne_nil n, renderNat_all_digits n, digitsVal_renderNat n]

theorem asciiLower_of_digit {c : Char} (h : isDigitCh c = true) : asciiLower c = c := by
  simp only [isDigitCh, decide_eq_true_eq] at h
  have h2 : ¬ (65 ≤ c.toNat ∧ c.toNat ≤ 90) := by omega
  simp [asciiLower, h2]

theorem map_asciiLower_digits : ∀ l : List Char, l.all isDigitCh = true →
    l.map asciiLower = l
  | [], _ => rfl
  | c :: cs, h => by
    simp only [List.all_cons, Bool.and_eq_true] at h
    simp [asciiLower_of_digit h.1, map_asciiLower_digits cs h.2]

theorem durationToSeconds_render_unit (n : Nat) (u : Char)
    (hu : asciiLower u = u) :
    (String.mk (renderNat n ++ [u])).data.map asciiLower = renderNat n ++ [u] := by
  show (renderNat n ++ [u]).map asciiLower = renderNat n ++ [u]
  rw [List.map_append, map_asciiLower_digits _ (renderNat_all_digits n)]
  simp [hu]

theorem durationToSeconds_mk_s (n : Nat) :
    durationToSeconds (String.mk (renderNat n ++ ['s'])) = .ok n := by
  unfold durationToSeconds
  simp only [durationToSeconds_render_unit n 's' (by decide)]
  rw [List.getLast?_concat, List.dropLast_concat]
  simp [parsePyNat_renderNat n]

theorem durationToSeconds_mk_m (n : Nat) :
    durationToSeconds (String.mk (renderNat n ++ ['m'])) = .ok (n * 60) := by
  unfold durationToSeconds
  simp only [durationToSeconds_render_unit n 'm' (by decide)]
  rw [List.getLast?_concat, List.dropLast_concat]
  simp [parsePyNat_renderNat n, Except.map]

theorem durationToSeconds_mk_h (n : Nat) :
    durationToSeconds (String.mk (renderNat n ++ ['h'])) = .ok (n * 3600) := by
  unfold durationToSeconds
  simp only [durationToSeconds_render_unit n 'h' (by decide)]
  rw [List.getLast?_concat, List.dropLast_concat]
  simp [parsePyNat_renderNat n, Except.map]

theorem secondsToDuration_roundtrip (s : Nat) :
    durationToSeconds (secondsToDuration s) = .ok s := by
  unfold secondsToDuration
  simp only []
  by_cases h1 : s % 60 ≠ 0 ∨ s / 60 = 0
  · rw [if_pos h1]; exact durationToSeconds_mk_s s
  · rw [if_neg h1]
    push_neg at h1
    by_cases h2 : s / 60 % 60 ≠ 0 ∨ s / 60 / 60 = 0
    · rw [if_pos h2]
      rw [durationToSeconds_mk_m (s / 60)]
      congr 1
      exact Nat.div_mul_cancel (Nat.dvd_of_mod_eq_zero h1.1)
    · rw [if_neg h2]
      rw [durationToSeconds_mk_h (s / 60 / 60)]
      push_neg at h2
      congr 1
      have d1 : 60 ∣ s := Nat.dvd_of_mod_eq_zero h1.1
      have d2 : 60 ∣ s / 60 := Nat.dvd_of_mod_eq_zero h2.1
      have h3600 : 3600 ∣ s := by
        obtain ⟨a, ha⟩ := d1
        obtain ⟨b, hb⟩ := d2
        subst ha
        rw [Nat.mul_div_cancel_left _ (by norm_num)] at hb
        subst hb
        exact ⟨b, by ring⟩
      rw [Nat.div_div_eq_div_mul]
      exact Nat.div_mul_cancel h3600

/-! ### Claim theorems -/

/-- C10 counterexample: the claim's case analysis says a value that is an
exact number of hours is rendered in the hours form, but `s = 0` (an exact
number of minutes and of hours) is rendered as `0s`, not `0h`; the
round-trip equation itself still holds there. -/
theorem C10_counterexample :
    (0 : Nat) % 3600 = 0 ∧
    secondsToDuration 0 = "0s" ∧
    secondsToDuration 0 ≠ String.mk (renderNat (0 / 3600) ++ ['h']) ∧
    durationToSeconds (secondsToDuration 0) = .ok 0 := by
  refine ⟨rfl, by decide, by decide, secondsToDuration_roundtrip 0⟩

/-- C10 (amended): `_duration_to_seconds` parses `_seconds_to_duration`
back for every natural number of seconds; the seconds form is emitted when
the value is not an exact number of minutes or is below one minute
(including 0), the minutes form when it is an exact number of minutes but
not an exact number of hours or below one hour, and the hours form
otherwise. -/
theorem C10_duration_roundtrip (s : Nat) :
    durationToSeconds (secondsToDuration s) = .ok s ∧
    (s % 60 ≠ 0 ∨ s / 60 = 0 →
      secondsToDuration s = String.mk (renderNat s ++ ['s'])) ∧
    (s % 60 = 0 → s / 60 ≠ 0 → s / 60 % 60 ≠ 0 ∨ s / 3600 = 0 →
      secondsToDuration s = String.mk (renderNat (s / 60) ++ ['m'])) ∧
    (s % 60 = 0 → s / 60 ≠ 0 → s / 60 % 60 = 0 → s / 3600 ≠ 0 →
      secondsToDuration s = String.mk (renderNat (s / 3600) ++ ['h'])) := by
  refine ⟨secondsToDuration_roundtrip s, ?_, ?_, ?_⟩
  · intro h
    unfold secondsToDuration
    simp only []
    rw [if_pos h]
  · intro h1 h2 h3
    unfold secondsToDuration
    simp only []
    rw [if_neg (by omega), if_pos (by omega)]
  · intro h1 h2 h3 h4
    unfold secondsToDuration
    simp only []
    rw [if_neg (by omega)]
    rw [if_neg (by omega)]
    have he : s / 60 / 60 = s / 3600 := by omega
    rw [he]

/-- C10 witness: the theorem applied at 7200 seconds. -/
theorem C10_witness :
    durationToSeconds (secondsToDuration 7200) = .ok 7200 ∧
    secondsToDuration 7200 = String.mk (renderNat (7200 / 3600) ++ ['h']) :=
  ⟨(C10_duration_roundtrip 7200).1,
    (C10_duration_roundtrip 7200).2.2.2 (by decide) (by decide) (by decide) (by decide)⟩

/-- C1: the template back-fill of `_update_label_values_metric` does not do
what the claim (and the code's own comment, lines 1154–1156 of the spec's
reading) says.  In the claim's own scenario — templating discovery on
measurement `net`, panel metrics `net_bytes_recv` and `net_bytes_sent` —
the key comparison `metric.rsplit("_", maxsplit=1)[0] == dash_metric`
compares the text before the *last* underscore (`net_bytes`) with the
recorded token (`net`), so no index key matches: the usage index receives
no template object and the discovery query is left unrewritten.  The
variant dashboard whose single metric `net_err` has exactly one token after
the measurement shows the comparison that does fire, and even then the
`break` stops after the first matching key. -/
theorem C1_backfill_code_bug :
    (convert_dashboard cfgFix stFix dashC1).1.metricToObjects.map (fun kv => kv.1)
      = ["net_bytes_recv", "net_bytes_sent"] ∧
    indexHasTemplEntry (convert_dashboard cfgFix stFix dashC1).1.metricToObjects
      = false ∧
    dashTplInfo (convert_dashboard cfgFix stFix dashC1)
      = [("label_values(net,host)", some "label_values(net,host)")] ∧
    dashTplInfo (convert_dashboard cfgFix stFix dashC1b)
      = [("label_values(net_err,host)", some "label_values(net,host)")] ∧
    indexHasTemplEntry (convert_dashboard cfgFix stFix dashC1b).1.metricToObjects
      = true :=
  ⟨rfl, rfl, rfl, rfl, rfl⟩

/-- C2 (amended): divide-by-self queries convert only when `get_conditions`
finds no condition at all, and the rendered expression carries the
code-synthesised boolean comparison `!= bool 0` (not the claim's
`y bool > 0`).  A condition on the select field itself makes
`convert_expression` raise the divide-by-self-with-conditions `ValueError`;
the claim's own query fails even earlier because its condition is on `y`
while the select field is `x`, which `get_conditions` rejects. -/
theorem C2_divide_by_self (cfg : Cfg) (st : ConvSt) :
    (convert_expression cfg st
        "SELECT mean(\"x\")/mean(\"x\") FROM \"m\" WHERE $timeFilter").2
      = .ok ("avg(m_x!= bool 0)", [], [], none) ∧
    (convert_expression cfg st
        "SELECT mean(\"x\")/mean(\"x\") FROM \"m\" WHERE \"x\" > 0").2
      = .error (.valueError ("Unsupported query SELECT mean(\"x\")/mean(\"x\")" ++
          " FROM \"m\" WHERE \"x\" > 0, divide by self combined with conditions" ++
          " or modifications")) ∧
    (convert_expression cfg st
        "SELECT mean(\"x\")/mean(\"x\") FROM \"m\" WHERE \"y\" > 0").2
      = .error (.valueError ("Query " ++ String.mk [squote] ++
          "SELECT mean(\"x\")/mean(\"x\") FROM \"m\" WHERE \"y\" > 0" ++
          String.mk [squote] ++
          " has condition that does not match select field, cannot convert")) := by
  cases cfg with
  | mk a b c d e =>
    cases st with
    | mk f g h i j => exact ⟨rfl, rfl, rfl⟩

/-- C2 counterexample: the claim's query `SELECT mean("x")/mean("x") FROM
"m" WHERE "y" > 0` does not succeed — `get_conditions` raises because the
condition's field `y` is not the select field `x` — so no `y bool > 0`
rendering ever happens. -/
theorem C2_counterexample :
    errOf (convert_expression cfgFix stFix
        "SELECT mean(\"x\")/mean(\"x\") FROM \"m\" WHERE \"y\" > 0").2
      = some (.valueError ("Query " ++ String.mk [squote] ++
          "SELECT mean(\"x\")/mean(\"x\") FROM \"m\" WHERE \"y\" > 0" ++
          String.mk [squote] ++
          " has condition that does not match select field, cannot convert")) :=
  rfl

/-- C3 (amended): count promotion happens, but only on queries whose text
also contains a `WHERE` clause (the claim's literal query fails metric-name
extraction).  With `WHERE $timeFilter GROUP BY time(5m)` the bare `count`
is promoted to `sum(count_over_time(...))`; with a real filter condition
the promotion is suppressed and the outer aggregation stays `count` — shown
end-to-end on the pipeline and in general over `format_expression` for
every non-empty condition string. -/
theorem C3_count_promotion :
    (convert_expression cfgFix stFix
        "SELECT count(\"x\") FROM \"m\" WHERE $timeFilter GROUP BY time(5m)").2
      = .ok ("sum(count_over_time(m_x[$__interval])) ", ["30s", "5m"], [], none) ∧
    (convert_expression cfgFix stFix
        "SELECT count(\"x\") FROM \"m\" WHERE \"x\" > 0 GROUP BY time(5m)").2
      = .ok ("count(m_x> 0)", ["30s", "5m"], [], none) ∧
    ∀ (cfg : Cfg) (c : String), c ≠ "" →
      (format_expression cfg false "m_x" ["count"] "" (some ⟨"", "5m", []⟩) []
          (.cstr c) none).1
        = "count(m_x" ++ c ++ ")" := by
  refine ⟨rfl, rfl, ?_⟩
  intro cfg c hc
  obtain ⟨cd⟩ := c
  cases cfg with
  | mk a b cc d e =>
    simp +decide [format_expression, formatOneCondition, hc, joinSpace,
      replace_invalid_metric_characters, get_metric_aggregation, setAdd,
      timeIntervalSub, String.intercalate]
    rfl

/-- C3 counterexample: the claim's literal query `SELECT count("x") FROM
"m" GROUP BY time(5m)` (no `WHERE`) does not produce any expression —
`get_metric_name`'s `from "..." where` pattern finds nothing and
`convert_expression` raises. -/
theorem C3_counterexample :
    (convert_expression cfgFix stFix
        "SELECT count(\"x\") FROM \"m\" GROUP BY time(5m)").2
      = .error (.valueError
          "Unable to find metric name in SELECT count(\"x\") FROM \"m\" GROUP BY time(5m)") :=
  rfl

/-- C3 witness: the suppression arm applied at the concrete condition
`> 0`. -/
theorem C3_witness :
    (format_expression cfgFix false "m_x" ["count"] "" (some ⟨"", "5m", []⟩) []
        (.cstr "> 0") none).1
      = "count(m_x" ++ "> 0" ++ ")" :=
  C3_count_promotion.2.2 cfgFix "> 0" (by decide)

/-- `dedup` of a non-empty constant list is the one-element list. -/
theorem dedup_const {k : String} : ∀ (l : List String), l ≠ [] →
    (∀ x ∈ l, x = k) → l.dedup = [k]
  | [], h, _ => absurd rfl h
  | a :: tl, _, hall => by
    have ha : a = k := hall a (List.mem_cons_self a tl)
    cases tl with
    | nil => simp [ha]
    | cons b tl2 =>
      have hrec : (b :: tl2).dedup = [k] :=
        dedup_const (b :: tl2) (by simp) (fun x hx => hall x (List.mem_cons_of_mem _ hx))
      have hmem : a ∈ b :: tl2 := by
        have hb : b = k := hall b (by simp)
        rw [ha, ← hb]; exact List.mem_cons_self b tl2
      rw [List.dedup_cons_of_mem hmem, hrec]

/-- C4: an OR group of tag conditions sharing one key with all-equality
operators becomes the single regex-alternation matcher
`"key"=~/^v1|v2|...$/` with the alternatives in input order (shown
end-to-end: the example pair renders `host=~"a|b"` inside the final
expression); an OR group whose conditions use two or more different keys
fails with the `Unsupported OR for tags with different key` `ValueError`. -/
theorem C4_or_groups :
    exprOfOut (convertOneTarget cfgFix none none stFix (.told targetOrSame))
      = some ("avg(m_x" ++ String.mk [braceL] ++ "host=~" ++ String.mk [dquote] ++
          "a|b" ++ String.mk [dquote] ++ String.mk [braceR] ++ ")") ∧
    (∀ (st : ConvSt) (t : Target) (tags : List Tag) (key : String),
      tags.any (fun tg => tg.condition = some "OR") = true →
      tags ≠ [] → (∀ tg ∈ tags, tg.key = key) →
      tags.all (fun tg => tg.operator = some "=") = true →
      tagsWhereItems st t tags = (st, .ok [String.mk [dquote] ++ key ++
        String.mk [dquote] ++ "=~/^" ++
        String.intercalate "|" (tags.map fun tg =>
          String.mk (replaceSub ("::tag".data) [] tg.value.data)) ++ "$/"])) ∧
    (∀ (st : ConvSt) (t : Target) (tags : List Tag),
      tags.any (fun tg => tg.condition = some "OR") = true →
      (tags.map (fun tg => tg.key)).dedup.length ≠ 1 →
      tagsWhereItems st t tags
        = (st, .error (.valueError "Unsupported OR for tags with different key"))) := by
  refine ⟨rfl, ?_, ?_⟩
  · intro st t tags key hor hne hkeys hops
    have hded : (tags.map (fun tg => tg.key)).dedup = [key] :=
      dedup_const _ (by simpa using hne) (by
        intro x hx
        obtain ⟨tg, htg, rfl⟩ := List.mem_map.mp hx
        exact hkeys tg htg)
    unfold tagsWhereItems
    rw [if_pos hor, if_neg (by rw [hded]; simp),
      if_neg (by rw [hops]; simp)]
    cases tags with
    | nil => exact absurd rfl hne
    | cons tg0 tags2 =>
      simp only [List.map_cons, List.head?_cons, Option.getD_some]
      rw [hkeys tg0 (List.mem_cons_self _ _)]
  · intro st t tags hor hk
    unfold tagsWhereItems
    rw [if_pos hor, if_pos hk]

/-- C4 witness: both general arms applied to the concrete shared-key and
mixed-key OR pairs. -/
theorem C4_witness :
    tagsWhereItems stFix targetOrSame tagsOrSame
      = (stFix, .ok ["\"host\"=~/^a|b$/"]) ∧
    tagsWhereItems stFix targetOrMixed tagsOrMixed
      = (stFix, .error (.valueError "Unsupported OR for tags with different key")) := by
  constructor
  · have h := C4_or_groups.2.1 stFix targetOrSame tagsOrSame "host"
      (by decide) (by decide) (by decide) (by decide)
    rw [h]; rfl
  · exact C4_or_groups.2.2 stFix targetOrMixed tagsOrMixed (by decide) (by decide)

/-- C5 (amended): only `ValueError` is contained at panel level.  When the
`try` body of `convert_panel` fails with a `ValueError`, the panel's
`targets` and `alert` are dropped, exactly one error is recorded (the
`addErr` form), and the panel conversion still returns `.ok` — so
`convert_panels` continues with the remaining panels.  A templating
`ValueError` propagates out of `convert_dashboard` as the distinguishable
dashboard-level `ConvertError`.  Any other exception type (see the
counterexample) escapes `convert_panel` uncontained. -/
theorem C5_error_containment :
    (∀ (cfg : Cfg) (tmpl : Option (List TplItem)) (st : ConvSt)
      (a : Nat) (b : Option String) (c : String) (d : DsField)
      (e : Option (List TOut)) (f : Option Alert) (g : Option (List Override))
      (h : Option String) (i : Option String) (children : List Panel)
      (st1 : ConvSt) (m : String),
      c ≠ "row" →
      convert_panel_body cfg tmpl st
          (Panel.mk a b c (panelDsReplace cfg d) e f g h i children)
          (panelPd d)
        = (st1, .error (.valueError m)) →
      (convert_panel cfg tmpl st (Panel.mk a b c d e f g h i children)).1
          = addErr st1 ("Unable to convert - " ++ m) "ERROR" ∧
      ∃ p2, (convert_panel cfg tmpl st (Panel.mk a b c d e f g h i children)).2
          = .ok p2 ∧ p2.targets = none ∧ p2.alert = none) ∧
    (∀ (cfg : Cfg) (st : ConvSt) (d : Dashboard) (items : List TplItem)
      (st4 : ConvSt) (m : String),
      d.panels = [] → d.rows = [] → d.templating = some items →
      convert_templating cfg { st with currentDashboard := d.title } items
        = (st4, .error (.valueError m)) →
      convert_dashboard cfg st d = (st4, .error (.convertError m))) := by
  constructor
  · intro cfg tmpl st a b c d e f g h i children st1 m hc hbody
    have hred : ∃ p2, convert_panel cfg tmpl st (Panel.mk a b c d e f g h i children)
        = (addErr st1 ("Unable to convert - " ++ m) "ERROR", .ok p2) ∧
        p2.targets = none ∧ p2.alert = none := by
      cases g with
      | none =>
        refine ⟨Panel.mk a b c (panelDsReplace cfg d) none none none h i children, ?_, rfl, rfl⟩
        simp only [convert_panel, hbody, hc]
        simp [Panel.seriesOverrides]
      | some l =>
        by_cases hl : l = []
        · subst hl
          refine ⟨Panel.mk a b c (panelDsReplace cfg d) none none (some []) h i children, ?_, rfl, rfl⟩
          simp only [convert_panel, hbody, hc]
          simp [Panel.seriesOverrides]
        · refine ⟨Panel.mk a b c (panelDsReplace cfg d) none none
            (some (convert_series_overrides l)) h i children, ?_, rfl, rfl⟩
          simp only [convert_panel, hbody, hc]
          simp [Panel.seriesOverrides, hl]
    obtain ⟨p2, hp2, ht2, ha2⟩ := hred
    rw [hp2]
    exact ⟨rfl, p2, rfl, ht2, ha2⟩
  · intro cfg st d items st4 m hp hr ht hct
    unfold convert_dashboard
    rw [hp, hr, ht]
    simp only [convert_panels, List.foldl]
    rw [hct]

/-- C5 counterexample: the claim's "an error raised while converting that
panel's targets is caught" is too broad — `GROUP BY time(1y)` makes
`_duration_to_seconds` raise `NotImplementedError`, which the
`except ValueError` handler does not catch, so it escapes `convert_panel`
(the panel is not downgraded; the whole dashboard conversion dies). -/
theorem C5_counterexample :
    errOf (convert_panel cfgFix none stFix panel1y).2
      = some (.notImplementedError "unknown duration 1y") :=
  rfl

/-- C5 witness: the containment arm at the select-less panel and the
propagation arm at the dashboard with the unconvertible templating query. -/
theorem C5_witness :
    (convert_panel cfgFix none stFix panelNoSelect).1
      = addErr stBodyC5 ("Unable to convert - " ++
          "Dashboard  is invalid, missing select field in target") "ERROR" ∧
    convert_dashboard cfgFix stFix dashBadTpl
      = (stTplC5, .error (.convertError
          "Unable to find tag values or key from 'SHOW SERIES'")) := by
  constructor
  · exact (C5_error_containment.1 cfgFix none stFix 1 (some "p") "graph" .absent
      (some [.told targetNoSelect]) none none none none [] stBodyC5
      "Dashboard  is invalid, missing select field in target" (by decide) (by rfl)).1
  · exact C5_error_containment.2 cfgFix stFix dashBadTpl [tplBadShape] stTplC5
      "Unable to find tag values or key from 'SHOW SERIES'" rfl rfl rfl rfl

/-- C6: re-running `convert_targets` on a target flagged `not-influx-target`
by a previous run is a no-op on the target, provided the detector still
rejects it (it flagged the target precisely because the detector rejected
it, and flagging changes no field the detector reads): the output element
equals the input element, no time-windows and no fill policies are
contributed, and the metric-usage index is untouched.  The only side effect
is the `DEBUG` skip entry in the error sink, which the claim does not
dispute. -/
theorem C6_flagged_noop (cfg : Cfg) (tmpl : Option (List TplItem)) (pd : Option DsVal)
    (st : ConvSt) (t : TOut)
    (hflag : (TOut.view t).notInfluxTarget = some true)
    (hdet : isTargetInfluxT cfg tmpl (TOut.view t) pd = .ok false) :
    convert_targets cfg tmpl pd st [t]
      = (addErr st "Skipping target - not Influx or is Flux" "DEBUG",
          .ok ([t], [], [])) ∧
    (convert_targets cfg tmpl pd st [t]).1.metricToObjects = st.metricToObjects := by
  have hfl : TOut.flag t = t := by
    cases t with
    | told tv =>
      cases tv with
      | mk rA rB rC rD rE rF rG rH rI rJ rK rL rM =>
        simp only [TOut.view, Target.notInfluxTarget] at hflag
        simp [TOut.flag, hflag]
    | tnew nv =>
      cases nv with
      | mk rA rB rC rD rE rF rG rH =>
        simp only [TOut.view, NewTarget.notInfluxTarget] at hflag
        simp [TOut.flag, hflag]
  have hone : convertOneTarget cfg tmpl pd st t
      = (addErr st "Skipping target - not Influx or is Flux" "DEBUG",
          .ok (t, [], [])) := by
    unfold convertOneTarget
    simp [hdet, hfl]
  constructor
  · unfold convert_targets
    simp only [List.foldl]
    rw [hone]
    simp
  · unfold convert_targets
    simp only [List.foldl]
    rw [hone]
    simp [addErr]

/-- C6 witness: the theorem at the concrete flagged plain target under a
Prometheus panel datasource. -/
theorem C6_witness :
    convert_targets cfgFix none pdProm stFix [.told targetFlagged]
      = (addErr stFix "Skipping target - not Influx or is Flux" "DEBUG",
          .ok ([.told targetFlagged], [], [])) :=
  (C6_flagged_noop cfgFix none pdProm stFix (.told targetFlagged) rfl (by rfl)).1

/-- C7: the label string `get_labels` returns is the comma-separated join
of a list that is sorted under the code-point order `strLe` (Python's
`sorted` on strings) and is a permutation of the label matchers collected
by the extraction/escaping phase (`get_labels_core`, whose accumulator is
the insertion-ordered duplicate-free set).  Determinism across calls is
immediate in this purely functional model. -/
theorem C7_labels_sorted_join (q f : String) :
    ∃ ls : List String,
      (get_labels q f).2 = String.intercalate "," ls ∧
      List.Sorted (fun a b => strLe a b = true) ls ∧
      ls.Perm (get_labels_core q f).2 :=
  ⟨List.insertionSort (fun a b => strLe a b = true) (get_labels_core q f).2, rfl,
    List.sorted_insertionSort _ _, List.perm_insertionSort _ _⟩

/-- `convertTemplatingStep` keeps an error accumulator unchanged. -/
theorem foldl_templating_error (cfg : Cfg) :
    ∀ (items : List TplItem) (st : ConvSt) (e : PyErr),
      items.foldl (convertTemplatingStep cfg) (st, .error e) = (st, .error e)
  | [], _, _ => rfl
  | _ :: rest, st, e => foldl_templating_error cfg rest st e

theorem foldl_templating_benign (cfg : Cfg) :
    ∀ (items : List TplItem),
      (∀ it ∈ items, it.type = "custom" ∨ it.type = "interval" ∨
        it.type = "datasource") →
      ∀ (st : ConvSt) (kept : List (TplItem × Option String)),
      items.foldl (convertTemplatingStep cfg) (st, .ok kept)
        = (st, .ok (kept ++ items.map (fun it => (it, none))))
  | [], _, st, kept => by simp
  | it :: rest, hall, st, kept => by
    have hit := hall it (List.mem_cons_self _ _)
    have hstep : convertTemplatingStep cfg (st, .ok kept) it
        = (st, .ok (kept ++ [(it, none)])) := by
      have hq : it.type ≠ "query" := by
        rcases hit with h | h | h <;> rw [h] <;> decide
      unfold convertTemplatingStep convert_templating_item
      simp only [if_neg hq, if_pos hit]
    rw [List.foldl_cons, hstep,
      foldl_templating_benign cfg rest
        (fun x hx => hall x (List.mem_cons_of_mem _ hx)) st (kept ++ [(it, none)])]
    simp

theorem enumFrom_filterMap_none :
    ∀ (items : List TplItem) (n : Nat),
      (List.enumFrom n (items.map fun it => (it, (none : Option String)))).filterMap
        (fun pr => pr.2.2.map (fun metric => (true, metric, pr.1))) = []
  | [], _ => rfl
  | _ :: rest, n => by
    simp only [List.map_cons, List.enumFrom, List.filterMap]
    exact enumFrom_filterMap_none rest (n + 1)

/-- C8: `convert_templating` leaves every `custom`/`interval`/`datasource`
variable unchanged (and such a list yields no back-fill entries); any other
kind besides `query` raises the unknown-template-type `ValueError`; and a
`query` variable whose discovery query begins with `show field keys`
(case-insensitively) is deleted: conversion of the list continues exactly
as if the item were not there, preserving the rest in order. -/
theorem C8_templating_kinds :
    (∀ (cfg : Cfg) (st : ConvSt) (items : List TplItem),
      (∀ it ∈ items, it.type = "custom" ∨ it.type = "interval" ∨
        it.type = "datasource") →
      convert_templating cfg st items = (st, .ok (items, []))) ∧
    (∀ (cfg : Cfg) (st : ConvSt) (it : TplItem) (rest : List TplItem),
      it.type ≠ "query" → it.type ≠ "custom" → it.type ≠ "interval" →
      it.type ≠ "datasource" →
      convert_templating cfg st (it :: rest)
        = (st, .error (.valueError
            ("Unknown template type for item " ++
              ("template item name=" ++ it.name))))) ∧
    (∀ (cfg : Cfg) (st : ConvSt) (it : TplItem) (rest : List TplItem) (q : String),
      it.type = "query" → it.query = .qstr q →
      csStarts ("show field keys".data) (q.data.map asciiLower) = true →
      convert_templating cfg st (it :: rest) = convert_templating cfg st rest) := by
  refine ⟨?_, ?_, ?_⟩
  · intro cfg st items hall
    unfold convert_templating
    rw [foldl_templating_benign cfg items hall st []]
    simp only [List.nil_append, List.enum]
    rw [enumFrom_filterMap_none items 0]
    have hmap : ∀ l : List TplItem,
        List.map ((fun x => x.1) ∘ fun it => (it, (none : Option String))) l = l := by
      intro l
      induction l with
      | nil => rfl
      | cons a tl ih =>
        show a :: List.map _ tl = a :: tl
        rw [ih]
    simp [hmap]
  · intro cfg st it rest h1 h2 h3 h4
    have hstep : convertTemplatingStep cfg (st, .ok []) it
        = (st, .error (.valueError
            ("Unknown template type for item " ++
              ("template item name=" ++ it.name)))) := by
      unfold convertTemplatingStep convert_templating_item
      simp only [if_neg h1, if_neg (show ¬ (it.type = "custom" ∨ it.type = "interval" ∨
        it.type = "datasource") by simp [h2, h3, h4]),
        convert_templating_item.tplItemStr]
    unfold convert_templating
    rw [List.foldl_cons, hstep, foldl_templating_error cfg rest st _]
  · intro cfg st it rest q hq hquery hsfk
    have hstep : convertTemplatingStep cfg (st, .ok []) it = (st, .ok []) := by
      unfold convertTemplatingStep convert_templating_item
      simp only [if_pos hq, hquery, tplQueryStr, if_pos hsfk]
    unfold convert_templating
    rw [List.foldl_cons, hstep]

/-- C8 witness: the three arms at one custom variable, one `adhoc`
variable, and one deleted `show field keys` variable followed by the custom
one. -/
theorem C8_witness :
    convert_templating cfgFix stFix [tplCustom] = (stFix, .ok ([tplCustom], [])) ∧
    convert_templating cfgFix stFix [tplUnknown]
      = (stFix, .error (.valueError
          ("Unknown template type for item " ++ ("template item name=" ++ "u")))) ∧
    convert_templating cfgFix stFix [tplSfk, tplCustom]
      = convert_templating cfgFix stFix [tplCustom] :=
  ⟨C8_templating_kinds.1 cfgFix stFix [tplCustom] (by decide),
    C8_templating_kinds.2.1 cfgFix stFix tplUnknown [] (by decide) (by decide)
      (by decide) (by decide),
    C8_templating_kinds.2.2 cfgFix stFix tplSfk [tplCustom]
      "SHOW FIELD KEYS FROM m" rfl rfl (by decide)⟩

/-- C9: whenever `convert_query` succeeds, the produced target's `instant`
field is true exactly when the input target's `resultFormat` is `table`,
and its `intervalFactor` is always 1 (both raw-query and structured
targets go through `convert_query`). -/
theorem C9_instant_interval (cfg : Cfg) (st : ConvSt) (q : String) (t : Target)
    (legend : String) (st2 : ConvSt) (nt : NewTarget) (ot fi : List String)
    (h : convert_query cfg st q t legend = (st2, .ok (nt, ot, fi))) :
    (nt.instant = true ↔ t.resultFormat = "table") ∧ nt.intervalFactor = 1 := by
  unfold convert_query at h
  repeat' split at h
  all_goals simp_all
  all_goals (obtain ⟨h1, h2, h3, h4⟩ := h; subst h2; exact ⟨by simp, rfl⟩)

/-- C9 witness: the theorem at a concrete table-formatted conversion. -/
theorem C9_witness :
    (ntC9.instant = true ↔ tC9.resultFormat = "table") ∧
    ntC9.intervalFactor = 1 :=
  C9_instant_interval cfgFix stFix qC9 tC9 "" stC9 ntC9 [] [] (by rfl)
